import Mathlib

/-!
Shallow embedding of the panopticon-scanner core: the reconciliation store
(`internal/database/database.go`) and the scan orchestrator
(`internal/scanner/scanner.go`).

Timestamps are modelled as natural numbers (seconds since the Unix epoch).
`time.Now().Truncate(time.Hour)` becomes `t / 3600 * 3600`, and the Go
comparison `t.After(now.Add(-time.Hour))` becomes `now < t + 3600` (both
sides shifted by one hour so the comparison stays inside `Nat`).

Every SQL statement executed by the Go code can return a runtime error
(`database/sql`).  Per-call failure records (`SdFail`, `SpFail`, `CoFail`)
model this: a flag is `true` exactly when the corresponding statement in the
source returns an error; constraint violations are one possible cause.  A
SQL transaction is modelled by accumulating writes on a local copy of the
store and installing that copy at commit; every error return hands back the
original store, which is the observable effect of the `defer tx.Rollback()`
in the source.  Statements whose failure the source only logs (the change
inserts and the `COALESCE(MAX(id), 1)` scan-id query) do not abort the call.
-/

/-- One row of the `devices` table (`initializeDB`); `mac_address` is the
only nullable column the store logic reads back. -/
structure DeviceRow where
  id : Nat
  ipAddress : String
  macAddress : Option String
  hostname : String
  osFingerprint : String
  firstSeen : Nat
  lastSeen : Nat
  deriving DecidableEq, Repr

/-- One row of the `ports` table.  `port_number` is an SQLite INTEGER bound
from a Go `int`, hence `Int`. -/
structure PortRow where
  id : Nat
  deviceId : Nat
  portNumber : Int
  protocol : String
  serviceName : String
  serviceVersion : String
  firstSeen : Nat
  lastSeen : Nat
  deriving DecidableEq, Repr

/-- One row of the `scans` table.  `error_message` is nullable: `CreateScan`
inserts without it, `UpdateScan` always binds a (possibly empty) string. -/
structure ScanRow where
  id : Nat
  timestamp : Nat
  template : String
  duration : Nat
  devicesFound : Nat
  portsFound : Nat
  status : String
  errorMessage : Option String
  deriving DecidableEq, Repr

/-- One row of the `changes` table. -/
structure ChangeRow where
  id : Nat
  scanId : Nat
  deviceId : Nat
  changeType : String
  details : String
  timestamp : Nat
  deriving DecidableEq, Repr

/-- One row of the `logs` table. -/
structure LogRow where
  id : Nat
  level : String
  message : String
  component : String
  timestamp : Nat
  deriving DecidableEq, Repr

/-- The persistent store: the five tables touched by the core operations,
plus the AUTOINCREMENT counter of each table (SQLite hands out
max-ever-used + 1; the counters start at 1). -/
structure DBState where
  devices : List DeviceRow
  ports : List PortRow
  scans : List ScanRow
  changes : List ChangeRow
  logs : List LogRow
  nextDeviceId : Nat
  nextPortId : Nat
  nextScanId : Nat
  nextChangeId : Nat
  nextLogId : Nat
  deriving DecidableEq, Repr

/-- A freshly initialized store (`initializeDB` creates empty tables). -/
def emptyDB : DBState :=
  { devices := [], ports := [], scans := [], changes := [], logs := [],
    nextDeviceId := 1, nextPortId := 1, nextScanId := 1, nextChangeId := 1,
    nextLogId := 1 }

/-- `time.Now().Truncate(time.Hour)` on epoch seconds. -/
def truncHour (t : Nat) : Nat := t / 3600 * 3600

/-- The Go `models.Device` argument of `DB.SaveDevice` (the fields the store
reads; `ID` and `PortCount` are outputs and never read by `SaveDevice`). -/
structure DeviceIn where
  ipAddress : String
  macAddress : String
  hostname : String
  osFingerprint : String
  firstSeen : Nat
  lastSeen : Nat
  deriving DecidableEq, Repr

/-- The Go `models.Port` argument of `DB.SavePort`. -/
structure PortIn where
  deviceId : Nat
  portNumber : Int
  protocol : String
  serviceName : String
  serviceVersion : String
  firstSeen : Nat
  lastSeen : Nat
  deriving DecidableEq, Repr

/-- The lookup predicate of `SaveDevice`:
`ip_address = ? AND (mac_address = ? OR (mac_address IS NULL AND ? IS NULL))`.
The MAC parameter is bound from a Go `string`, which is never SQL NULL, so
the `IS NULL` disjunct is always false and `mac_address = ?` is false on a
NULL row (SQL three-valued logic). -/
def deviceKeyMatches (dev : DeviceIn) (r : DeviceRow) : Bool :=
  r.ipAddress == dev.ipAddress && r.macAddress == some dev.macAddress

/-- The lookup predicate of `SavePort`:
`device_id = ? AND port_number = ? AND protocol = ?`. -/
def portKeyMatches (port : PortIn) (r : PortRow) : Bool :=
  r.deviceId == port.deviceId && r.portNumber == port.portNumber &&
    r.protocol == port.protocol

/-- `SELECT COALESCE(MAX(id), 1) FROM scans`. -/
def latestScanId (db : DBState) : Nat :=
  if db.scans.isEmpty then 1
  else db.scans.foldl (fun acc s => max acc s.id) 0

/-- `INSERT INTO changes (scan_id, device_id, change_type, details, timestamp)`. -/
def appendChange (db : DBState) (scanId deviceId : Nat)
    (changeType details : String) (now : Nat) : DBState :=
  { db with
    changes := db.changes ++
      [{ id := db.nextChangeId, scanId, deviceId, changeType, details,
         timestamp := now }],
    nextChangeId := db.nextChangeId + 1 }

/-- The row inserted by `SaveDevice` on its insert path. -/
def newDeviceRow (dev : DeviceIn) (now : Nat) (id : Nat) : DeviceRow :=
  { id, ipAddress := dev.ipAddress, macAddress := some dev.macAddress,
    hostname := dev.hostname, osFingerprint := dev.osFingerprint,
    firstSeen := truncHour now, lastSeen := truncHour now }

/-- The `hasChanges` predicate of `SaveDevice`'s update path: a field counts
as changed only when the incoming value is non-empty and differs from the
stored one (`oldMac` is the stored MAC with NULL read back as `""`). -/
def deviceHasChanges (dev : DeviceIn) (row : DeviceRow) : Bool :=
  (dev.macAddress != row.macAddress.getD "" && dev.macAddress != "")
  || (dev.hostname != row.hostname && dev.hostname != "")
  || (dev.osFingerprint != row.osFingerprint && dev.osFingerprint != "")

/-- The `changeDetails` string of `SaveDevice`'s update path: one fragment
per changed field, in source order. -/
def deviceChangeDetails (dev : DeviceIn) (row : DeviceRow) : String :=
  (if dev.macAddress != row.macAddress.getD "" && dev.macAddress != "" then
    "MAC address changed: " ++ row.macAddress.getD "" ++ " -> " ++
      dev.macAddress ++ "; "
   else "")
  ++ (if dev.hostname != row.hostname && dev.hostname != "" then
    "Hostname changed: " ++ row.hostname ++ " -> " ++ dev.hostname ++ "; "
   else "")
  ++ (if dev.osFingerprint != row.osFingerprint && dev.osFingerprint != "" then
    "OS changed: " ++ row.osFingerprint ++ " -> " ++ dev.osFingerprint ++ "; "
   else "")

/-- The per-row effect of the `UPDATE devices SET ... WHERE id = ?` of
`SaveDevice`'s update path: MAC, hostname and OS keep the stored value when
the incoming one is empty (`macValue`, `hostnameValue`, `osValue` in the
source), `last_seen` becomes the rounded time. -/
def updatedDeviceFields (dev : DeviceIn) (now : Nat) (row : DeviceRow)
    (r : DeviceRow) : DeviceRow :=
  if r.id == row.id then
    { r with
      macAddress := some (if dev.macAddress == "" && row.macAddress.isSome
        then row.macAddress.getD "" else dev.macAddress),
      hostname := if dev.hostname == "" then row.hostname else dev.hostname,
      osFingerprint :=
        if dev.osFingerprint == "" then row.osFingerprint else dev.osFingerprint,
      lastSeen := truncHour now }
  else r

/-- Runtime-failure record for the statements of `DB.SaveDevice`, in source
order.  `scanIdQuery` and `insertChange` failures are logged, not fatal. -/
structure SdFail where
  beginTx : Bool := false
  selectId : Bool := false
  insertDevice : Bool := false
  selectOld : Bool := false
  updateDevice : Bool := false
  scanIdQuery : Bool := false
  insertChange : Bool := false
  commitTx : Bool := false
  deriving DecidableEq, Repr

/-- The insert path of `DB.SaveDevice` (lookup found no row): insert the
device with both timestamps rounded to the hour, then append a `new_device`
change against `COALESCE(MAX(id), 1)` of `scans` (id `1` when the query
fails), then commit. -/
def saveDeviceInsert (f : SdFail) (now : Nat) (dev : DeviceIn) (db : DBState) :
    DBState × Except String Nat :=
  if f.insertDevice then (db, .error "failed to insert device") else
  let id := db.nextDeviceId
  let tx : DBState := { db with
    devices := db.devices ++ [newDeviceRow dev now id],
    nextDeviceId := db.nextDeviceId + 1 }
  let scanId := if f.scanIdQuery then 1 else latestScanId tx
  let tx :=
    if f.insertChange then tx
    else appendChange tx scanId id "new_device"
      ("New device discovered: " ++ dev.ipAddress) now
  if f.commitTx then (db, .error "failed to commit transaction")
  else (tx, .ok id)

/-- The update path of `DB.SaveDevice` (lookup found `row`): re-read the
stored fields (modelled by `row`, which the same transaction just found),
update the row when a field changed or the incoming `lastSeen` is within
the last hour, and append a `device_change` change only when a field
changed. -/
def saveDeviceUpdate (f : SdFail) (now : Nat) (dev : DeviceIn)
    (row : DeviceRow) (db : DBState) : DBState × Except String Nat :=
  if f.selectOld then (db, .error "failed to retrieve existing device data") else
  if deviceHasChanges dev row || decide (now < dev.lastSeen + 3600) then
    if f.updateDevice then (db, .error "failed to update device") else
    let tx : DBState :=
      { db with devices := db.devices.map (updatedDeviceFields dev now row) }
    let tx :=
      if deviceHasChanges dev row then
        let scanId := if f.scanIdQuery then 1 else latestScanId tx
        if f.insertChange then tx
        else appendChange tx scanId row.id "device_change"
          (deviceChangeDetails dev row) now
      else tx
    if f.commitTx then (db, .error "failed to commit transaction")
    else (tx, .ok row.id)
  else
    if f.commitTx then (db, .error "failed to commit transaction")
    else (db, .ok row.id)

/-- `DB.SaveDevice` (database.go): transactional upsert of a device keyed on
`(ip_address, mac_address)` with change detection.  The first component of
the result is the store visible after the call (the input store on every
error, by rollback). -/
def saveDevice (f : SdFail) (now : Nat) (dev : DeviceIn) (db : DBState) :
    DBState × Except String Nat :=
  if f.beginTx then (db, .error "failed to begin transaction") else
  if f.selectId then (db, .error "failed to check if device exists") else
  match db.devices.find? (deviceKeyMatches dev) with
  | none => saveDeviceInsert f now dev db
  | some row => saveDeviceUpdate f now dev row db

/-- The row inserted by `SavePort` on its insert path. -/
def newPortRow (port : PortIn) (now : Nat) (id : Nat) : PortRow :=
  { id, deviceId := port.deviceId, portNumber := port.portNumber,
    protocol := port.protocol, serviceName := port.serviceName,
    serviceVersion := port.serviceVersion,
    firstSeen := truncHour now, lastSeen := truncHour now }

/-- The `serviceChanged` predicate of `SavePort`'s update path. -/
def portServiceChanged (port : PortIn) (row : PortRow) : Bool :=
  (port.serviceName != row.serviceName && port.serviceName != "")
  || (port.serviceVersion != row.serviceVersion && port.serviceVersion != "")

/-- The `port_change` details string of `SavePort`'s update path: old and
resolved new service name/version around an arrow. -/
def portChangeDetails (port : PortIn) (row : PortRow) : String :=
  "Service on port " ++ toString port.portNumber ++ "/" ++ port.protocol
  ++ " changed: " ++ row.serviceName ++ " " ++ row.serviceVersion ++ " -> "
  ++ (if port.serviceName == "" then row.serviceName else port.serviceName)
  ++ " "
  ++ (if port.serviceVersion == "" then row.serviceVersion
      else port.serviceVersion)

/-- The per-row effect of the `UPDATE ports SET ... WHERE id = ?` of
`SavePort`'s update path. -/
def updatedPortFields (port : PortIn) (now : Nat) (row : PortRow)
    (r : PortRow) : PortRow :=
  if r.id == row.id then
    { r with
      serviceName := if port.serviceName == "" then row.serviceName
        else port.serviceName,
      serviceVersion := if port.serviceVersion == "" then row.serviceVersion
        else port.serviceVersion,
      lastSeen := truncHour now }
  else r

/-- Runtime-failure record for the statements of `DB.SavePort`. -/
structure SpFail where
  beginTx : Bool := false
  selectPort : Bool := false
  insertPort : Bool := false
  updatePort : Bool := false
  scanIdQuery : Bool := false
  insertChange : Bool := false
  commitTx : Bool := false
  deriving DecidableEq, Repr

/-- The insert path of `DB.SavePort` (lookup found no row). -/
def savePortInsert (f : SpFail) (now : Nat) (port : PortIn) (db : DBState) :
    DBState × Except String Unit :=
  if f.insertPort then (db, .error "failed to insert port") else
  let id := db.nextPortId
  let tx : DBState := { db with
    ports := db.ports ++ [newPortRow port now id],
    nextPortId := db.nextPortId + 1 }
  let scanId := if f.scanIdQuery then 1 else latestScanId tx
  let tx :=
    if f.insertChange then tx
    else appendChange tx scanId port.deviceId "new_port"
      ("New port discovered: " ++ toString port.portNumber ++ "/" ++
        port.protocol ++ " - " ++ port.serviceName) now
  if f.commitTx then (db, .error "failed to commit transaction")
  else (tx, .ok ())

/-- The update path of `DB.SavePort` (lookup found `row`). -/
def savePortUpdate (f : SpFail) (now : Nat) (port : PortIn) (row : PortRow)
    (db : DBState) : DBState × Except String Unit :=
  if portServiceChanged port row || decide (now < port.lastSeen + 3600) then
    if f.updatePort then (db, .error "failed to update port") else
    let tx : DBState :=
      { db with ports := db.ports.map (updatedPortFields port now row) }
    let tx :=
      if portServiceChanged port row then
        let scanId := if f.scanIdQuery then 1 else latestScanId tx
        if f.insertChange then tx
        else appendChange tx scanId port.deviceId "port_change"
          (portChangeDetails port row) now
      else tx
    if f.commitTx then (db, .error "failed to commit transaction")
    else (tx, .ok ())
  else
    if f.commitTx then (db, .error "failed to commit transaction")
    else (db, .ok ())

/-- `DB.SavePort` (database.go): transactional upsert of a port keyed on
`(device_id, port_number, protocol)` with service-change detection. -/
def savePort (f : SpFail) (now : Nat) (port : PortIn) (db : DBState) :
    DBState × Except String Unit :=
  if f.beginTx then (db, .error "failed to begin transaction") else
  if f.selectPort then (db, .error "failed to check if port exists") else
  match db.ports.find? (portKeyMatches port) with
  | none => savePortInsert f now port db
  | some row => savePortUpdate f now port row db

/-- Runtime-failure record for the statements of `DB.CleanOldData`. -/
structure CoFail where
  beginTx : Bool := false
  deleteChanges : Bool := false
  deleteScans : Bool := false
  deleteDevices : Bool := false
  deleteLogs : Bool := false
  commitTx : Bool := false
  deriving DecidableEq, Repr

/-- `DB.CleanOldData` (database.go): one transaction deleting Change, Scan,
Device (Ports cascading) and Log rows older than
`now.AddDate(0, 0, -retentionDays)`.  The schema declares
`ON DELETE CASCADE` from `ports.device_id` to `devices` and from
`changes.scan_id` / `changes.device_id` to `scans` / `devices`, and
`optimizeDB` turns `PRAGMA foreign_keys=ON`, so deleting a scan or device
also deletes the change rows that reference it; SQLite's `RowsAffected`
counts only the directly deleted rows. -/
def cleanOldData (f : CoFail) (now : Nat) (retentionDays : Nat) (db : DBState) :
    DBState × Except String Nat :=
  if f.beginTx then (db, .error "failed to begin transaction") else
  let cutoff := now - retentionDays * 86400
  if f.deleteChanges then (db, .error "failed to delete old changes") else
  let changeCount := (db.changes.filter (fun c => decide (c.timestamp < cutoff))).length
  let tx1 : DBState :=
    { db with changes := db.changes.filter (fun c => !decide (c.timestamp < cutoff)) }
  if f.deleteScans then (db, .error "failed to delete old scans") else
  let deadScans := tx1.scans.filter (fun s => decide (s.timestamp < cutoff))
  let scanCount := deadScans.length
  let tx2 : DBState := { tx1 with
    scans := tx1.scans.filter (fun s => !decide (s.timestamp < cutoff)),
    changes := tx1.changes.filter (fun c => !deadScans.any (fun s => s.id == c.scanId)) }
  if f.deleteDevices then (db, .error "failed to delete old devices") else
  let deadDevices := tx2.devices.filter (fun d => decide (d.lastSeen < cutoff))
  let deviceCount := deadDevices.length
  let tx3 : DBState := { tx2 with
    devices := tx2.devices.filter (fun d => !decide (d.lastSeen < cutoff)),
    ports := tx2.ports.filter (fun p => !deadDevices.any (fun d => d.id == p.deviceId)),
    changes := tx2.changes.filter (fun c => !deadDevices.any (fun d => d.id == c.deviceId)) }
  if f.deleteLogs then (db, .error "failed to delete old logs") else
  let logCount := (tx3.logs.filter (fun l => decide (l.timestamp < cutoff))).length
  let tx4 : DBState :=
    { tx3 with logs := tx3.logs.filter (fun l => !decide (l.timestamp < cutoff)) }
  if f.commitTx then (db, .error "failed to commit transaction")
  else (tx4, .ok (scanCount + deviceCount + changeCount + logCount))

/-- `DB.CreateScan`: inserts a `running` scan row (no `error_message` bound,
so the column is NULL) and returns the fresh id. -/
def createScan (now : Nat) (template : String) (db : DBState) : DBState × Nat :=
  ({ db with
     scans := db.scans ++
       [{ id := db.nextScanId, timestamp := now, template, duration := 0,
          devicesFound := 0, portsFound := 0, status := "running",
          errorMessage := none }],
     nextScanId := db.nextScanId + 1 }, db.nextScanId)

/-- `DB.UpdateScan`: rejects an empty status, otherwise updates status,
counts, duration and `error_message` of the row with the given id
(`error_message` is bound from a Go string, so it becomes non-NULL). -/
def updateScan (db : DBState) (id : Nat) (status : String)
    (devicesFound portsFound : Nat) (durationSecs : Nat) (errorMsg : String) :
    DBState × Except String Unit :=
  if status == "" then (db, .error "status cannot be empty")
  else
    ({ db with scans := db.scans.map (fun s =>
        if s.id == id then
          { s with status, devicesFound, portsFound, duration := durationSecs,
                   errorMessage := some errorMsg }
        else s) }, .ok ())

/-- A scan template (`scanner.ScanTemplate`). -/
structure ScanTemplate where
  name : String
  description : String
  nmapArgs : List String
  rateLimit : Int
  deriving DecidableEq, Repr

/-- The built-in `default` template of `ScanService.getTemplates`. -/
def defaultScanTemplate : ScanTemplate :=
  { name := "default", description := "Standard network scan",
    nmapArgs := ["-sS", "-sV", "-O", "--osscan-limit"], rateLimit := 1000 }

/-- The hardcoded template map of `ScanService.getTemplates`, as a lookup. -/
def scanTemplates (name : String) : Option ScanTemplate :=
  if name == "default" then some defaultScanTemplate
  else if name == "quick" then
    some { name := "quick", description := "Fast scan of common ports",
           nmapArgs := ["-sS", "-F"], rateLimit := 2000 }
  else if name == "thorough" then
    some { name := "thorough", description := "Detailed scan of all ports",
           nmapArgs := ["-sS", "-sV", "-p-", "-O", "--osscan-guess"],
           rateLimit := 500 }
  else if name == "stealth" then
    some { name := "stealth", description := "Low-impact scan for sensitive networks",
           nmapArgs := ["-sS", "-T2", "--max-retries", "1"], rateLimit := 100 }
  else none

/-- `ScanService.getScanTemplate`: looks the name up and falls back to the
built-in `default` template (with a logged warning) when it is unknown; the
Go function always returns a nil error. -/
def getScanTemplate (name : String) : Except String ScanTemplate :=
  match scanTemplates name with
  | some t => .ok t
  | none => .ok defaultScanTemplate

/-- The Go `models.ScanParameters` of `RunManualScan`. -/
structure ScanParameters where
  template : String
  targetNetwork : String
  rateLimit : Int
  scanAllPorts : Bool
  disablePing : Bool
  deriving DecidableEq, Repr

/-- `ScanService.prepareScanCommand`: the argument list handed to `nmap`
(the command path itself excluded). -/
def prepareScanCommand (template : ScanTemplate) (outputPath : String)
    (cfgTargetNetwork : String) : Except String (List String) :=
  let args := ["-oX", outputPath] ++ template.nmapArgs
    ++ ["--max-rate", toString template.rateLimit]
  if cfgTargetNetwork == "" then .error "no target network specified in configuration"
  else .ok (args ++ [cfgTargetNetwork])

/-- `strings.HasPrefix` of Go, on the character lists of the two strings
(the arguments here are ASCII flag strings, where byte and character
prefixes coincide). -/
def strStartsWith (s pre : String) : Bool := pre.data.isPrefixOf s.data

/-- `ScanService.prepareManualScanCommand`: applies the `scanAllPorts`,
`disablePing`, rate-limit and target-network overrides on top of the
template before appending `--max-rate` and the target. -/
def prepareManualScanCommand (template : ScanTemplate) (outputPath : String)
    (params : ScanParameters) (cfgTargetNetwork : String) :
    Except String (List String) :=
  let args := ["-oX", outputPath]
  let args :=
    if params.scanAllPorts then
      args ++ template.nmapArgs.filter (fun a => ! strStartsWith a "-p") ++ ["-p-"]
    else
      args ++ template.nmapArgs
  let args :=
    if params.disablePing && ! args.contains "-Pn" then args ++ ["-Pn"] else args
  let rateLimit := if params.rateLimit > 0 then params.rateLimit else template.rateLimit
  let args := args ++ ["--max-rate", toString rateLimit]
  let targetNetwork :=
    if params.targetNetwork != "" then params.targetNetwork else cfgTargetNetwork
  if targetNetwork == "" then .error "no target network specified"
  else .ok (args ++ [targetNetwork])

/-- An `address` element of the nmap XML output. -/
structure NmapAddress where
  addr : String
  addrType : String
  deriving DecidableEq, Repr

/-- A `service` element of the nmap XML output. -/
structure NmapService where
  name : String
  product : String
  version : String
  deriving DecidableEq, Repr

/-- A `port` element of the nmap XML output. -/
structure NmapPort where
  protocol : String
  portId : String
  state : String
  service : NmapService
  deriving DecidableEq, Repr

/-- A `host` element of the nmap XML output (`hostnames` flattened to the
name attributes, `os` to the ordered osmatch names). -/
structure NmapHost where
  status : String
  addresses : List NmapAddress
  hostnames : List String
  ports : List NmapPort
  osMatches : List String
  deriving DecidableEq, Repr

/-- The parsed `nmaprun` document. -/
structure NmapRun where
  hosts : List NmapHost
  deriving DecidableEq, Repr

/-- The address-extraction loop of `processScanResults`: the last `ipv4`
and last `mac` address win. -/
def extractAddresses (addrs : List NmapAddress) : String × String :=
  addrs.foldl (fun acc a =>
    if a.addrType == "ipv4" then (a.addr, acc.2)
    else if a.addrType == "mac" then (acc.1, a.addr)
    else acc) ("", "")

/-- The service-version construction of `processScanResults`: product and
version joined with a space when both are present, empty without a product. -/
def buildServiceVersion (svc : NmapService) : String :=
  if svc.product != "" then
    if svc.version != "" then svc.product ++ " " ++ svc.version else svc.product
  else ""

/-- The per-host port loop of `processScanResults`: skip non-`open` ports,
skip ports whose `portid` does not parse as an integer (`strconv.Atoi`,
modelled by `String.toInt?`), otherwise `SavePort`; a failed save is logged
and skipped.  Statement-level store failures during ingestion are not
injected here (the happy-path store is used), matching the intended run. -/
def savePortsOfHost (now : Nat) (deviceId : Nat) (ports : List NmapPort)
    (acc : DBState × Nat) : DBState × Nat :=
  ports.foldl (fun acc p =>
    if p.state != "open" then acc
    else
      match p.portId.toInt? with
      | none => acc
      | some portNum =>
        let r := savePort {} now
          { deviceId, portNumber := portNum, protocol := p.protocol,
            serviceName := p.service.name,
            serviceVersion := buildServiceVersion p.service,
            firstSeen := now, lastSeen := now } acc.1
        match r.2 with
        | .error _ => (r.1, acc.2)
        | .ok _ => (r.1, acc.2 + 1)) acc

/-- `ScanService.processScanResults` after the XML has been read and parsed:
skips hosts that are not `up` or have no IPv4 address, upserts each
surviving host and its open ports, and returns the device and port counts. -/
def processScanResults (run : NmapRun) (now : Nat) (db : DBState) :
    DBState × Nat × Nat :=
  run.hosts.foldl (fun acc host =>
    if host.status != "up" then acc
    else
      let ipmac := extractAddresses host.addresses
      if ipmac.1 == "" then acc
      else
        let r := saveDevice {} now
          { ipAddress := ipmac.1, macAddress := ipmac.2,
            hostname := host.hostnames.headD "",
            osFingerprint := host.osMatches.headD "",
            firstSeen := now, lastSeen := now } acc.1
        match r.2 with
        | .error _ => (r.1, acc.2.1, acc.2.2)
        | .ok deviceId =>
          let pr := savePortsOfHost now deviceId host.ports (r.1, acc.2.2)
          (pr.1, acc.2.1 + 1, pr.2)) (db, 0, 0)

/-- The in-memory `scanner.ScanStats` record. -/
structure ScanStats where
  scanID : Nat
  startTime : Nat
  endTime : Nat
  status : String
  devicesFound : Nat
  portsFound : Nat
  error : Option String
  deriving DecidableEq, Repr

/-- The mutable orchestrator state guarded by `scanLock`. -/
structure ScanServiceState where
  isScanning : Bool
  scanStats : ScanStats
  deriving DecidableEq, Repr

/-- The state built by `scanner.New`. -/
def idleService : ScanServiceState :=
  { isScanning := false,
    scanStats := { scanID := 0, startTime := 0, endTime := 0, status := "idle",
                   devicesFound := 0, portsFound := 0, error := none } }

/-- `ScanService.updateScanError`: records the error on the in-memory stats. -/
def updateScanErrorStats (st : ScanServiceState) (msg : String) : ScanServiceState :=
  { st with scanStats := { st.scanStats with status := "error", error := some msg } }

/-- `ScanService.updateScanInDB`: delegates to `DB.UpdateScan` with an empty
error-message string; callers ignore its error, so the observable store of a
failed update is unchanged. -/
def updateScanInDB (db : DBState) (scanId : Nat) (status : String)
    (deviceCount portCount durationSecs : Nat) : DBState :=
  (updateScan db scanId status deviceCount portCount durationSecs "").1

/-- The deferred cleanup of `RunScan`/`RunManualScan`: clear `isScanning`
and set `endTime` on every exit path. -/
def finishScan (now : Nat) (st : ScanServiceState) : ScanServiceState :=
  { st with isScanning := false,
            scanStats := { st.scanStats with endTime := now } }

/-- Outcome of the external subprocess and of reading its output file:
failure to start, a non-zero exit, an unreadable or unparsable output file,
or a parsed document. -/
inductive ScanOutcome where
  | startFailure (msg : String)
  | exitNonZero (msg : String)
  | resultsUnreadable (msg : String)
  | results (run : NmapRun)
  deriving DecidableEq, Repr

/-- The tail of `RunScan`/`RunManualScan` from the subprocess launch on:
identical in both source functions.  On start failure or non-zero exit the
scan row is updated to `error` with zero counts; on unreadable results the
counts returned by `processScanResults` (zero on both of its error paths)
are written; on success the row becomes `completed` with the merge counts. -/
def scanExecutionPhase (outcome : ScanOutcome) (dbScanID : Nat) (now : Nat)
    (st : ScanServiceState) (db : DBState) :
    Except String Nat × ScanServiceState × DBState :=
  match outcome with
  | .startFailure m =>
    let msg := "failed to start nmap: " ++ m
    let db := updateScanInDB db dbScanID "error" 0 0 (now - st.scanStats.startTime)
    (.error msg, finishScan now (updateScanErrorStats st msg), db)
  | .exitNonZero m =>
    let msg := "nmap command failed: " ++ m
    let db := updateScanInDB db dbScanID "error" 0 0 (now - st.scanStats.startTime)
    (.error msg, finishScan now (updateScanErrorStats st msg), db)
  | .resultsUnreadable m =>
    let msg := "failed to process scan results: " ++ m
    let db := updateScanInDB db dbScanID "error" 0 0 (now - st.scanStats.startTime)
    (.error msg, finishScan now (updateScanErrorStats st msg), db)
  | .results run =>
    let res := processScanResults run now db
    let db := updateScanInDB res.1 dbScanID "completed" res.2.1 res.2.2
      (now - st.scanStats.startTime)
    let st := { st with scanStats :=
      { st.scanStats with
        status := "completed",
        devicesFound := res.2.1,
        portsFound := res.2.2 } }
    (.ok dbScanID, finishScan now st, db)

/-- `ScanService.RunScan` (non-mock path): rejects a concurrent scan under
the lock, marks the service running, resolves the template, prepares the
command, records the scan row, and runs `scanExecutionPhase`.
`createScanErr` injects a `CreateScan` statement failure; the deferred
cleanup (`finishScan`) runs on every exit. -/
def runScan (outcome : ScanOutcome) (createScanErr : Option String)
    (templateName : String) (outputPath : String) (cfgTargetNetwork : String)
    (now : Nat) (st : ScanServiceState) (db : DBState) :
    Except String Nat × ScanServiceState × DBState :=
  if st.isScanning then (.error "a scan is already in progress", st, db)
  else
    let st : ScanServiceState := { st with
      isScanning := true,
      scanStats := { scanID := 0, startTime := now, endTime := 0,
                     status := "running", devicesFound := 0, portsFound := 0,
                     error := none } }
    match getScanTemplate templateName with
    | .error e => (.error e, finishScan now (updateScanErrorStats st e), db)
    | .ok template =>
      match prepareScanCommand template outputPath cfgTargetNetwork with
      | .error e => (.error e, finishScan now (updateScanErrorStats st e), db)
      | .ok _args =>
        match createScanErr with
        | some e =>
          let msg := "failed to record scan in database: " ++ e
          (.error msg, finishScan now (updateScanErrorStats st msg), db)
        | none =>
          let created := createScan now templateName db
          let st : ScanServiceState :=
            { st with scanStats := { st.scanStats with scanID := created.2 } }
          scanExecutionPhase outcome created.2 now st created.1

/-- `ScanService.RunManualScan` (non-mock path): like `RunScan` but with
parameter overrides; the source records the scan row before preparing the
command, so a preparation error there also updates the row to `error`. -/
def runManualScan (outcome : ScanOutcome) (createScanErr : Option String)
    (params : ScanParameters) (outputPath : String) (cfgTargetNetwork : String)
    (now : Nat) (st : ScanServiceState) (db : DBState) :
    Except String Nat × ScanServiceState × DBState :=
  if st.isScanning then (.error "a scan is already in progress", st, db)
  else
    let st : ScanServiceState := { st with
      isScanning := true,
      scanStats := { scanID := 0, startTime := now, endTime := 0,
                     status := "running", devicesFound := 0, portsFound := 0,
                     error := none } }
    match getScanTemplate params.template with
    | .error e => (.error e, finishScan now (updateScanErrorStats st e), db)
    | .ok template0 =>
      let template :=
        if params.rateLimit > 0 then { template0 with rateLimit := params.rateLimit }
        else template0
      match createScanErr with
      | some e =>
        let msg := "failed to record scan in database: " ++ e
        (.error msg, finishScan now (updateScanErrorStats st msg), db)
      | none =>
        let created := createScan now params.template db
        let st : ScanServiceState :=
          { st with scanStats := { st.scanStats with scanID := created.2 } }
        match prepareManualScanCommand template outputPath params cfgTargetNetwork with
        | .error e =>
          let db := updateScanInDB created.1 created.2 "error" 0 0
            (now - st.scanStats.startTime)
          (.error e, finishScan now (updateScanErrorStats st e), db)
        | .ok _args =>
          scanExecutionPhase outcome created.2 now st created.1

/-- Pairwise absence of a key collision along a list: every element is
checked against all later ones. -/
def noDupBy {α : Type} (k : α → α → Bool) : List α → Bool
  | [] => true
  | x :: xs => xs.all (fun y => ! k x y) && noDupBy k xs

/-- Two device rows collide on the `UNIQUE(ip_address, mac_address)` key;
`Option` equality makes a NULL MAC collide only with a NULL MAC. -/
def devKeyEq (a b : DeviceRow) : Bool :=
  a.ipAddress == b.ipAddress && a.macAddress == b.macAddress

/-- Two port rows collide on the `UNIQUE(device_id, port_number, protocol)` key. -/
def portKeyEq (a b : PortRow) : Bool :=
  a.deviceId == b.deviceId && a.portNumber == b.portNumber &&
    a.protocol == b.protocol

/-- Device-id collision. -/
def devIdEq (a b : DeviceRow) : Bool := a.id == b.id

/-- Port-id collision. -/
def portIdEq (a b : PortRow) : Bool := a.id == b.id

/-- No two device rows share `(ip_address, mac_address)`. -/
def devicesUnique (db : DBState) : Bool := noDupBy devKeyEq db.devices

/-- No two port rows share `(device_id, port_number, protocol)`. -/
def portsUnique (db : DBState) : Bool := noDupBy portKeyEq db.ports

/-- Store well-formedness: distinct primary keys below the AUTOINCREMENT
counters, and the two uniqueness invariants. -/
def dbWellFormed (db : DBState) : Bool :=
  noDupBy devIdEq db.devices
    && db.devices.all (fun d => decide (d.id < db.nextDeviceId))
    && devicesUnique db
    && noDupBy portIdEq db.ports
    && db.ports.all (fun p => decide (p.id < db.nextPortId))
    && portsUnique db

/-- One store mutation, with its injected statement-failure record. -/
inductive StoreOp where
  | saveDeviceOp (f : SdFail) (now : Nat) (dev : DeviceIn)
  | savePortOp (f : SpFail) (now : Nat) (port : PortIn)
  | cleanOldDataOp (f : CoFail) (now : Nat) (retentionDays : Nat)
  | createScanOp (now : Nat) (template : String)
  | updateScanOp (id : Nat) (status : String) (devicesFound portsFound durationSecs : Nat)
      (errorMsg : String)
  deriving DecidableEq, Repr

/-- The store visible after one mutation (the input store when the call
errored and rolled back). -/
def applyOp (op : StoreOp) (db : DBState) : DBState :=
  match op with
  | .saveDeviceOp f now dev => (saveDevice f now dev db).1
  | .savePortOp f now port => (savePort f now port db).1
  | .cleanOldDataOp f now rd => (cleanOldData f now rd db).1
  | .createScanOp now t => (createScan now t db).1
  | .updateScanOp id st df pf dur em => (updateScan db id st df pf dur em).1

def devW6 : DeviceIn :=
  { ipAddress := "10.0.0.9", macAddress := "", hostname := "", osFingerprint := "",
    firstSeen := 0, lastSeen := 0 }

def busyService : ScanServiceState := { idleService with isScanning := true }

def dbW10 : DBState :=
  { emptyDB with
    devices := [{ id := 1, ipAddress := "192.168.1.5", macAddress := some "00:11",
                  hostname := "h", osFingerprint := "os", firstSeen := 3600,
                  lastSeen := 3600 }],
    ports := [{ id := 1, deviceId := 1, portNumber := 22, protocol := "tcp",
                serviceName := "ssh", serviceVersion := "8.0", firstSeen := 3600,
                lastSeen := 3600 }],
    nextDeviceId := 2, nextPortId := 2 }

def devW10 : DeviceIn :=
  { ipAddress := "192.168.1.5", macAddress := "00:11", hostname := "h2",
    osFingerprint := "os", firstSeen := 7200, lastSeen := 7200 }

def portW10 : PortIn :=
  { deviceId := 1, portNumber := 22, protocol := "tcp", serviceName := "ssh",
    serviceVersion := "9.1", firstSeen := 7200, lastSeen := 7200 }

def dbC2 : DBState :=
  { emptyDB with
    devices := [{ id := 1,
                  ipAddress := "192.168.1.10",
                  macAddress := some "aa:bb:cc:dd:ee:ff",
                  hostname := "host1",
                  osFingerprint := "Linux",
                  firstSeen := 3600,
                  lastSeen := 9000 }],
    nextDeviceId := 2 }

def rowC2 : DeviceRow :=
  { id := 1, ipAddress := "192.168.1.10", macAddress := some "aa:bb:cc:dd:ee:ff",
    hostname := "host1", osFingerprint := "Linux", firstSeen := 3600,
    lastSeen := 9000 }

def devC2 : DeviceIn :=
  { ipAddress := "192.168.1.10", macAddress := "aa:bb:cc:dd:ee:ff",
    hostname := "host1", osFingerprint := "Linux", firstSeen := 10000,
    lastSeen := 10000 }

def devC2w : DeviceIn := { devC2 with hostname := "host2" }

def templateOrDefault (name : String) : ScanTemplate :=
  (scanTemplates name).getD defaultScanTemplate

def paramsW8 : ScanParameters :=
  { template := "thorough", targetNetwork := "10.0.0.0/24", rateLimit := 0,
    scanAllPorts := true, disablePing := true }

def devC5 : DeviceIn :=
  { ipAddress := "192.168.1.23", macAddress := "aa:bb:cc:dd:ee:ff",
    hostname := "printer", osFingerprint := "Linux", firstSeen := 7200,
    lastSeen := 7200 }

def portC5 : PortIn :=
  { deviceId := 1, portNumber := 631, protocol := "tcp",
    serviceName := "ipp", serviceVersion := "CUPS 2.4", firstSeen := 7200,
    lastSeen := 7200 }

def chgC7 : ChangeRow :=
  { id := 1, scanId := 1, deviceId := 0, changeType := "new_device",
    details := "d", timestamp := 200 }

def dbC7 : DBState :=
  { emptyDB with
    scans := [{ id := 1, timestamp := 50, template := "default", duration := 1,
                devicesFound := 0, portsFound := 0, status := "completed",
                errorMessage := none }],
    changes := [chgC7],
    nextScanId := 2, nextChangeId := 2 }

theorem noDupBy_iff_pairwise {α : Type} (k : α → α → Bool) (l : List α) :
    noDupBy k l = true ↔ List.Pairwise (fun a b => k a b = false) l := by
  induction l with
  | nil => simp [noDupBy]
  | cons x xs ih =>
    simp [noDupBy, List.all_eq_true, List.pairwise_cons, ih, and_comm]

theorem eq_of_noDupBy {α : Type} {k : α → α → Bool} {l : List α} {x y : α}
    (hsym : ∀ a b, k a b = k b a) (h : noDupBy k l = true)
    (hx : x ∈ l) (hy : y ∈ l) (hxy : k x y = true) : x = y := by
  rw [noDupBy_iff_pairwise] at h
  induction l with
  | nil => cases hx
  | cons z zs ih =>
    rcases List.pairwise_cons.mp h with ⟨hz, hzs⟩
    rcases List.mem_cons.mp hx with hx1 | hx1 <;>
      rcases List.mem_cons.mp hy with hy1 | hy1
    · exact hx1.trans hy1.symm
    · subst hx1
      have := hz y hy1
      rw [hxy] at this
      cases this
    · subst hy1
      have := hz x hx1
      rw [hsym x y] at hxy
      rw [hxy] at this
      cases this
    · exact ih hzs hx1 hy1

theorem saveDeviceInsert_fst (f : SdFail) (now : Nat) (dev : DeviceIn) (db : DBState) :
    (saveDeviceInsert f now dev db).1 = db
    ∨ ((saveDeviceInsert f now dev db).1.devices
          = db.devices ++ [newDeviceRow dev now db.nextDeviceId]
        ∧ (saveDeviceInsert f now dev db).1.nextDeviceId = db.nextDeviceId + 1
        ∧ (saveDeviceInsert f now dev db).1.ports = db.ports
        ∧ (saveDeviceInsert f now dev db).1.nextPortId = db.nextPortId) := by
  unfold saveDeviceInsert
  by_cases h1 : f.insertDevice = true
  · simp [h1]
  by_cases h2 : f.insertChange = true
  · by_cases h3 : f.commitTx = true
    · simp [h1, h2, h3]
    · simp [h1, h2, h3, appendChange]
  · by_cases h3 : f.commitTx = true
    · simp [h1, h2, h3]
    · simp [h1, h2, h3, appendChange]

theorem saveDeviceUpdate_fst (f : SdFail) (now : Nat) (dev : DeviceIn)
    (row : DeviceRow) (db : DBState) :
    (saveDeviceUpdate f now dev row db).1 = db
    ∨ ((saveDeviceUpdate f now dev row db).1.devices
          = db.devices.map (updatedDeviceFields dev now row)
        ∧ (saveDeviceUpdate f now dev row db).1.nextDeviceId = db.nextDeviceId
        ∧ (saveDeviceUpdate f now dev row db).1.ports = db.ports
        ∧ (saveDeviceUpdate f now dev row db).1.nextPortId = db.nextPortId) := by
  unfold saveDeviceUpdate
  by_cases h1 : f.selectOld = true
  · simp [h1]
  by_cases hc : (deviceHasChanges dev row || decide (now < dev.lastSeen + 3600)) = true
  · by_cases h2 : f.updateDevice = true
    · simp [h1, hc, h2]
    by_cases hch : deviceHasChanges dev row = true
    · by_cases h3 : f.insertChange = true
      · by_cases h4 : f.commitTx = true
        · simp [h1, hc, h2, hch, h3, h4]
        · simp [h1, hc, h2, hch, h3, h4, appendChange]
      · by_cases h4 : f.commitTx = true
        · simp [h1, hc, h2, hch, h3, h4]
        · simp [h1, hc, h2, hch, h3, h4, appendChange]
    · have h5 : now < dev.lastSeen + 3600 := by
        rcases Bool.or_eq_true_iff.mp hc with h | h
        · exact absurd h hch
        · exact of_decide_eq_true h
      by_cases h4 : f.commitTx = true
      · simp [h1, hc, h2, hch, h4]
      · simp [h1, hc, h2, hch, h4, h5]
  · by_cases h4 : f.commitTx = true
    · simp [h1, hc, h4]
    · simp [h1, hc, h4]

theorem savePortInsert_fst (f : SpFail) (now : Nat) (port : PortIn) (db : DBState) :
    (savePortInsert f now port db).1 = db
    ∨ ((savePortInsert f now port db).1.ports
          = db.ports ++ [newPortRow port now db.nextPortId]
        ∧ (savePortInsert f now port db).1.nextPortId = db.nextPortId + 1
        ∧ (savePortInsert f now port db).1.devices = db.devices
        ∧ (savePortInsert f now port db).1.nextDeviceId = db.nextDeviceId) := by
  unfold savePortInsert
  by_cases h1 : f.insertPort = true
  · simp [h1]
  by_cases h2 : f.insertChange = true
  · by_cases h3 : f.commitTx = true
    · simp [h1, h2, h3]
    · simp [h1, h2, h3, appendChange]
  · by_cases h3 : f.commitTx = true
    · simp [h1, h2, h3]
    · simp [h1, h2, h3, appendChange]

theorem savePortUpdate_fst (f : SpFail) (now : Nat) (port : PortIn)
    (row : PortRow) (db : DBState) :
    (savePortUpdate f now port row db).1 = db
    ∨ ((savePortUpdate f now port row db).1.ports
          = db.ports.map (updatedPortFields port now row)
        ∧ (savePortUpdate f now port row db).1.nextPortId = db.nextPortId
        ∧ (savePortUpdate f now port row db).1.devices = db.devices
        ∧ (savePortUpdate f now port row db).1.nextDeviceId = db.nextDeviceId) := by
  unfold savePortUpdate
  by_cases hc : (portServiceChanged port row || decide (now < port.lastSeen + 3600)) = true
  · by_cases h2 : f.updatePort = true
    · simp [hc, h2]
    by_cases hch : portServiceChanged port row = true
    · by_cases h3 : f.insertChange = true
      · by_cases h4 : f.commitTx = true
        · simp [hc, h2, hch, h3, h4]
        · simp [hc, h2, hch, h3, h4, appendChange]
      · by_cases h4 : f.commitTx = true
        · simp [hc, h2, hch, h3, h4]
        · simp [hc, h2, hch, h3, h4, appendChange]
    · have h5 : now < port.lastSeen + 3600 := by
        rcases Bool.or_eq_true_iff.mp hc with h | h
        · exact absurd h hch
        · exact of_decide_eq_true h
      by_cases h4 : f.commitTx = true
      · simp [hc, h2, hch, h4]
      · simp [hc, h2, hch, h4, h5]
  · by_cases h4 : f.commitTx = true
    · simp [hc, h4]
    · simp [hc, h4]

theorem noDupBy_append_one {α : Type} (k : α → α → Bool) (l : List α) (x : α)
    (hl : noDupBy k l = true) (hx : ∀ y ∈ l, k y x = false) :
    noDupBy k (l ++ [x]) = true := by
  rw [noDupBy_iff_pairwise] at *
  rw [List.pairwise_append]
  refine ⟨hl, List.pairwise_singleton _ _, ?_⟩
  intro a ha b hb
  rw [List.mem_singleton] at hb
  subst hb
  exact hx a ha

theorem noDupBy_map_of_memKey {α : Type} (k : α → α → Bool) (f : α → α)
    (l : List α) (hl : noDupBy k l = true)
    (hk : ∀ a ∈ l, ∀ b ∈ l, k (f a) (f b) = k a b) :
    noDupBy k (l.map f) = true := by
  rw [noDupBy_iff_pairwise] at *
  rw [List.pairwise_map]
  exact hl.imp_of_mem (fun ha hb hab => by rw [hk _ ha _ hb]; exact hab)

theorem noDupBy_filter {α : Type} (k : α → α → Bool) (p : α → Bool)
    (l : List α) (hl : noDupBy k l = true) :
    noDupBy k (l.filter p) = true := by
  rw [noDupBy_iff_pairwise] at *
  exact hl.sublist (List.filter_sublist l)

theorem updatedDeviceFields_id (dev : DeviceIn) (now : Nat) (row r : DeviceRow) :
    (updatedDeviceFields dev now row r).id = r.id := by
  unfold updatedDeviceFields
  split <;> rfl

theorem deviceKeyMatches_iff (dev : DeviceIn) (r : DeviceRow) :
    deviceKeyMatches dev r = true
      ↔ r.ipAddress = dev.ipAddress ∧ r.macAddress = some dev.macAddress := by
  simp [deviceKeyMatches]

theorem updatedDeviceFields_key_self (dev : DeviceIn) (now : Nat)
    (row : DeviceRow) (hkey : deviceKeyMatches dev row = true) :
    (updatedDeviceFields dev now row row).ipAddress = row.ipAddress
    ∧ (updatedDeviceFields dev now row row).macAddress = row.macAddress := by
  rcases (deviceKeyMatches_iff dev row).mp hkey with ⟨hip, hmac⟩
  constructor
  · unfold updatedDeviceFields
    split <;> rfl
  · unfold updatedDeviceFields
    by_cases hemp : (dev.macAddress == "") = true <;> simp [hmac, hemp]

theorem updatedDeviceFields_mem_key (dev : DeviceIn) (now : Nat)
    (row : DeviceRow) (l : List DeviceRow)
    (hids : noDupBy devIdEq l = true) (hmem : row ∈ l)
    (hkey : deviceKeyMatches dev row = true) :
    ∀ a ∈ l, (updatedDeviceFields dev now row a).ipAddress = a.ipAddress
      ∧ (updatedDeviceFields dev now row a).macAddress = a.macAddress := by
  intro a ha
  by_cases hid : (a.id == row.id) = true
  · have hsym : ∀ x y : DeviceRow, devIdEq x y = devIdEq y x := by
      intro x y
      by_cases h : x.id = y.id
      · simp [devIdEq, h]
      · simp [devIdEq, h, Ne.symm h]
    have : a = row := eq_of_noDupBy hsym hids ha hmem (by simpa [devIdEq] using hid)
    subst this
    exact updatedDeviceFields_key_self dev now a hkey
  · unfold updatedDeviceFields
    simp [hid]

theorem updatedPortFields_frame (port : PortIn) (now : Nat) (row r : PortRow) :
    (updatedPortFields port now row r).id = r.id
    ∧ (updatedPortFields port now row r).deviceId = r.deviceId
    ∧ (updatedPortFields port now row r).portNumber = r.portNumber
    ∧ (updatedPortFields port now row r).protocol = r.protocol
    ∧ (updatedPortFields port now row r).firstSeen = r.firstSeen := by
  unfold updatedPortFields
  split <;> exact ⟨rfl, rfl, rfl, rfl, rfl⟩

theorem updatedDeviceFields_frame (dev : DeviceIn) (now : Nat) (row r : DeviceRow) :
    (updatedDeviceFields dev now row r).id = r.id
    ∧ (updatedDeviceFields dev now row r).ipAddress = r.ipAddress
    ∧ (updatedDeviceFields dev now row r).firstSeen = r.firstSeen := by
  unfold updatedDeviceFields
  split <;> exact ⟨rfl, rfl, rfl⟩

theorem dbWellFormed_iff (db : DBState) :
    dbWellFormed db = true
      ↔ noDupBy devIdEq db.devices = true
        ∧ (db.devices.all (fun d => decide (d.id < db.nextDeviceId))) = true
        ∧ devicesUnique db = true
        ∧ noDupBy portIdEq db.ports = true
        ∧ (db.ports.all (fun p => decide (p.id < db.nextPortId))) = true
        ∧ portsUnique db = true := by
  simp [dbWellFormed, Bool.and_eq_true, and_assoc]

theorem wf_saveDevice (f : SdFail) (now : Nat) (dev : DeviceIn) (db : DBState)
    (h : dbWellFormed db = true) :
    dbWellFormed (saveDevice f now dev db).1 = true := by
  rcases (dbWellFormed_iff db).mp h with ⟨hids, hbnd, huniq, hpids, hpbnd, hpuniq⟩
  unfold saveDevice
  split
  · exact h
  split
  · exact h
  cases hfind : db.devices.find? (deviceKeyMatches dev) with
  | none =>
    rcases saveDeviceInsert_fst f now dev db with heq | ⟨hdev, hnid, hpt, hnpt⟩
    · rw [heq]; exact h
    rw [dbWellFormed_iff]
    rw [devicesUnique] at huniq ⊢
    rw [portsUnique] at hpuniq ⊢
    rw [hdev, hnid, hpt, hnpt]
    have hfresh : ∀ y ∈ db.devices, y.id ≠ db.nextDeviceId := by
      intro y hy
      have := List.all_eq_true.mp hbnd y hy
      exact Nat.ne_of_lt (of_decide_eq_true this)
    refine ⟨?_, ?_, ?_, hpids, hpbnd, hpuniq⟩
    · refine noDupBy_append_one _ _ _ hids ?_
      intro y hy
      simp [devIdEq, newDeviceRow, hfresh y hy]
    · rw [List.all_eq_true]
      intro y hy
      rcases List.mem_append.mp hy with hy1 | hy1
      · have := List.all_eq_true.mp hbnd y hy1
        exact decide_eq_true (Nat.lt_succ_of_lt (of_decide_eq_true this))
      · rw [List.mem_singleton] at hy1
        subst hy1
        exact decide_eq_true (Nat.lt_succ_self _)
    · refine noDupBy_append_one _ _ _ huniq ?_
      intro y hy
      have := List.find?_eq_none.mp hfind y hy
      simpa [devKeyEq, newDeviceRow, deviceKeyMatches] using this
  | some row =>
    have hmem : row ∈ db.devices := List.mem_of_find?_eq_some hfind
    have hkey : deviceKeyMatches dev row = true := List.find?_some hfind
    rcases saveDeviceUpdate_fst f now dev row db with heq | ⟨hdev, hnid, hpt, hnpt⟩
    · rw [heq]; exact h
    rw [dbWellFormed_iff]
    rw [devicesUnique] at huniq ⊢
    rw [portsUnique] at hpuniq ⊢
    rw [hdev, hnid, hpt, hnpt]
    refine ⟨?_, ?_, ?_, hpids, hpbnd, hpuniq⟩
    · refine noDupBy_map_of_memKey _ _ _ hids ?_
      intro a _ b _
      simp [devIdEq, updatedDeviceFields_id]
    · rw [List.all_eq_true]
      intro y hy
      rcases List.mem_map.mp hy with ⟨a, ha, rfl⟩
      rw [updatedDeviceFields_id]
      exact List.all_eq_true.mp hbnd a ha
    · refine noDupBy_map_of_memKey _ _ _ huniq ?_
      intro a ha b hb
      rcases updatedDeviceFields_mem_key dev now row db.devices hids hmem hkey a ha with ⟨hip1, hmac1⟩
      rcases updatedDeviceFields_mem_key dev now row db.devices hids hmem hkey b hb with ⟨hip2, hmac2⟩
      simp [devKeyEq, hip1, hmac1, hip2, hmac2]

theorem wf_savePort (f : SpFail) (now : Nat) (port : PortIn) (db : DBState)
    (h : dbWellFormed db = true) :
    dbWellFormed (savePort f now port db).1 = true := by
  rcases (dbWellFormed_iff db).mp h with ⟨hids, hbnd, huniq, hpids, hpbnd, hpuniq⟩
  unfold savePort
  split
  · exact h
  split
  · exact h
  cases hfind : db.ports.find? (portKeyMatches port) with
  | none =>
    rcases savePortInsert_fst f now port db with heq | ⟨hpt, hnpt, hdev, hnid⟩
    · rw [heq]; exact h
    rw [dbWellFormed_iff]
    rw [devicesUnique] at huniq ⊢
    rw [portsUnique] at hpuniq ⊢
    rw [hdev, hnid, hpt, hnpt]
    have hfresh : ∀ y ∈ db.ports, y.id ≠ db.nextPortId := by
      intro y hy
      have := List.all_eq_true.mp hpbnd y hy
      exact Nat.ne_of_lt (of_decide_eq_true this)
    refine ⟨hids, hbnd, huniq, ?_, ?_, ?_⟩
    · refine noDupBy_append_one _ _ _ hpids ?_
      intro y hy
      simp [portIdEq, newPortRow, hfresh y hy]
    · rw [List.all_eq_true]
      intro y hy
      rcases List.mem_append.mp hy with hy1 | hy1
      · have := List.all_eq_true.mp hpbnd y hy1
        exact decide_eq_true (Nat.lt_succ_of_lt (of_decide_eq_true this))
      · rw [List.mem_singleton] at hy1
        subst hy1
        exact decide_eq_true (Nat.lt_succ_self _)
    · refine noDupBy_append_one _ _ _ hpuniq ?_
      intro y hy
      have := List.find?_eq_none.mp hfind y hy
      simpa [portKeyEq, newPortRow, portKeyMatches] using this
  | some row =>
    rcases savePortUpdate_fst f now port row db with heq | ⟨hpt, hnpt, hdev, hnid⟩
    · rw [heq]; exact h
    rw [dbWellFormed_iff]
    rw [devicesUnique] at huniq ⊢
    rw [portsUnique] at hpuniq ⊢
    rw [hdev, hnid, hpt, hnpt]
    refine ⟨hids, hbnd, huniq, ?_, ?_, ?_⟩
    · refine noDupBy_map_of_memKey _ _ _ hpids ?_
      intro a _ b _
      simp [portIdEq, (updatedPortFields_frame port now row a).1,
        (updatedPortFields_frame port now row b).1]
    · rw [List.all_eq_true]
      intro y hy
      rcases List.mem_map.mp hy with ⟨a, ha, rfl⟩
      rw [(updatedPortFields_frame port now row a).1]
      exact List.all_eq_true.mp hpbnd a ha
    · refine noDupBy_map_of_memKey _ _ _ hpuniq ?_
      intro a _ b _
      rcases updatedPortFields_frame port now row a with ⟨_, hd1, hn1, hp1, _⟩
      rcases updatedPortFields_frame port now row b with ⟨_, hd2, hn2, hp2, _⟩
      simp [portKeyEq, hd1, hn1, hp1, hd2, hn2, hp2]

theorem cleanOldData_fst (f : CoFail) (now retentionDays : Nat) (db : DBState) :
    (cleanOldData f now retentionDays db).1 = db
    ∨ ((cleanOldData f now retentionDays db).1.devices
          = db.devices.filter (fun d => !decide (d.lastSeen < now - retentionDays * 86400))
        ∧ (cleanOldData f now retentionDays db).1.ports
          = db.ports.filter (fun p =>
              !(db.devices.filter (fun d => decide (d.lastSeen < now - retentionDays * 86400))).any
                (fun d => d.id == p.deviceId))
        ∧ (cleanOldData f now retentionDays db).1.nextDeviceId = db.nextDeviceId
        ∧ (cleanOldData f now retentionDays db).1.nextPortId = db.nextPortId) := by
  unfold cleanOldData
  by_cases h1 : f.beginTx = true
  · simp [h1]
  by_cases h2 : f.deleteChanges = true
  · simp [h1, h2]
  by_cases h3 : f.deleteScans = true
  · simp [h1, h2, h3]
  by_cases h4 : f.deleteDevices = true
  · simp [h1, h2, h3, h4]
  by_cases h5 : f.deleteLogs = true
  · simp [h1, h2, h3, h4, h5]
  by_cases h6 : f.commitTx = true
  · simp [h1, h2, h3, h4, h5, h6]
  · simp [h1, h2, h3, h4, h5, h6]

theorem wf_cleanOldData (f : CoFail) (now retentionDays : Nat) (db : DBState)
    (h : dbWellFormed db = true) :
    dbWellFormed (cleanOldData f now retentionDays db).1 = true := by
  rcases (dbWellFormed_iff db).mp h with ⟨hids, hbnd, huniq, hpids, hpbnd, hpuniq⟩
  rcases cleanOldData_fst f now retentionDays db with heq | ⟨hdev, hpt, hnid, hnpt⟩
  · rw [heq]; exact h
  rw [dbWellFormed_iff]
  rw [devicesUnique] at huniq ⊢
  rw [portsUnique] at hpuniq ⊢
  rw [hdev, hpt, hnid, hnpt]
  refine ⟨noDupBy_filter _ _ _ hids, ?_, noDupBy_filter _ _ _ huniq,
    noDupBy_filter _ _ _ hpids, ?_, noDupBy_filter _ _ _ hpuniq⟩
  · rw [List.all_eq_true]
    intro y hy
    exact List.all_eq_true.mp hbnd y (List.mem_of_mem_filter hy)
  · rw [List.all_eq_true]
    intro y hy
    exact List.all_eq_true.mp hpbnd y (List.mem_of_mem_filter hy)

theorem wf_createScan (now : Nat) (template : String) (db : DBState)
    (h : dbWellFormed db = true) :
    dbWellFormed (createScan now template db).1 = true := by
  rcases (dbWellFormed_iff db).mp h with ⟨hids, hbnd, huniq, hpids, hpbnd, hpuniq⟩
  rw [dbWellFormed_iff]
  exact ⟨hids, hbnd, huniq, hpids, hpbnd, hpuniq⟩

theorem wf_updateScan (db : DBState) (id : Nat) (status : String)
    (devicesFound portsFound durationSecs : Nat) (errorMsg : String)
    (h : dbWellFormed db = true) :
    dbWellFormed (updateScan db id status devicesFound portsFound durationSecs errorMsg).1 = true := by
  rcases (dbWellFormed_iff db).mp h with ⟨hids, hbnd, huniq, hpids, hpbnd, hpuniq⟩
  unfold updateScan
  split
  · exact h
  · rw [dbWellFormed_iff]
    exact ⟨hids, hbnd, huniq, hpids, hpbnd, hpuniq⟩

theorem wf_applyOp (op : StoreOp) (db : DBState) (h : dbWellFormed db = true) :
    dbWellFormed (applyOp op db) = true := by
  cases op with
  | saveDeviceOp f now dev => exact wf_saveDevice f now dev db h
  | savePortOp f now port => exact wf_savePort f now port db h
  | cleanOldDataOp f now rd => exact wf_cleanOldData f now rd db h
  | createScanOp now t => exact wf_createScan now t db h
  | updateScanOp id st df pf dur em => exact wf_updateScan db id st df pf dur em h

theorem wf_foldl_applyOp (ops : List StoreOp) (db : DBState)
    (h : dbWellFormed db = true) :
    dbWellFormed (ops.foldl (fun d op => applyOp op d) db) = true := by
  induction ops generalizing db with
  | nil => exact h
  | cons op rest ih => exact ih (applyOp op db) (wf_applyOp op db h)

theorem saveDevice_rollback (f : SdFail) (now : Nat) (dev : DeviceIn) (db : DBState) :
    (saveDevice f now dev db).1 = db ∨ ∃ v, (saveDevice f now dev db).2 = .ok v := by
  unfold saveDevice
  split
  · exact Or.inl rfl
  split
  · exact Or.inl rfl
  cases hfind : db.devices.find? (deviceKeyMatches dev) with
  | none =>
    unfold saveDeviceInsert
    by_cases h1 : f.insertDevice = true
    · simp [h1]
    by_cases h2 : f.insertChange = true <;> by_cases h3 : f.commitTx = true <;>
      simp [h1, h2, h3]
  | some row =>
    unfold saveDeviceUpdate
    by_cases h1 : f.selectOld = true
    · simp [h1]
    by_cases hc : (deviceHasChanges dev row || decide (now < dev.lastSeen + 3600)) = true <;>
      by_cases h2 : f.updateDevice = true <;>
      by_cases hch : deviceHasChanges dev row = true <;>
      by_cases h3 : f.insertChange = true <;>
      by_cases h4 : f.commitTx = true <;>
      simp [h1, hc, h2, hch, h3, h4]
    all_goals (split <;> simp)

theorem savePort_rollback (f : SpFail) (now : Nat) (port : PortIn) (db : DBState) :
    (savePort f now port db).1 = db ∨ ∃ v, (savePort f now port db).2 = .ok v := by
  unfold savePort
  split
  · exact Or.inl rfl
  split
  · exact Or.inl rfl
  cases hfind : db.ports.find? (portKeyMatches port) with
  | none =>
    unfold savePortInsert
    by_cases h1 : f.insertPort = true
    · simp [h1]
    by_cases h2 : f.insertChange = true <;> by_cases h3 : f.commitTx = true <;>
      simp [h1, h2, h3]
  | some row =>
    unfold savePortUpdate
    by_cases hc : (portServiceChanged port row || decide (now < port.lastSeen + 3600)) = true <;>
      by_cases h2 : f.updatePort = true <;>
      by_cases hch : portServiceChanged port row = true <;>
      by_cases h3 : f.insertChange = true <;>
      by_cases h4 : f.commitTx = true <;>
      simp [hc, h2, hch, h3, h4]
    all_goals (split <;> simp)

theorem cleanOldData_rollback (f : CoFail) (now rd : Nat) (db : DBState) :
    (cleanOldData f now rd db).1 = db ∨ ∃ v, (cleanOldData f now rd db).2 = .ok v := by
  unfold cleanOldData
  by_cases h1 : f.beginTx = true <;>
    by_cases h2 : f.deleteChanges = true <;>
    by_cases h3 : f.deleteScans = true <;>
    by_cases h4 : f.deleteDevices = true <;>
    by_cases h5 : f.deleteLogs = true <;>
    by_cases h6 : f.commitTx = true <;>
    simp [h1, h2, h3, h4, h5, h6]

/-- C6: every store mutation call (SaveDevice, SavePort, CleanOldData) is
all-or-nothing: whenever the call returns an error, the observable store is
the input store (the transaction was rolled back, so no partial write is
visible). -/
theorem c6_store_mutation_atomicity :
    (∀ (f : SdFail) (now : Nat) (dev : DeviceIn) (db : DBState) (e : String),
      (saveDevice f now dev db).2 = .error e → (saveDevice f now dev db).1 = db)
    ∧ (∀ (f : SpFail) (now : Nat) (port : PortIn) (db : DBState) (e : String),
      (savePort f now port db).2 = .error e → (savePort f now port db).1 = db)
    ∧ (∀ (f : CoFail) (now retentionDays : Nat) (db : DBState) (e : String),
      (cleanOldData f now retentionDays db).2 = .error e
        → (cleanOldData f now retentionDays db).1 = db) := by
  refine ⟨?_, ?_, ?_⟩
  · intro f now dev db e h
    rcases saveDevice_rollback f now dev db with h1 | ⟨v, hv⟩
    · exact h1
    · rw [hv] at h; cases h
  · intro f now port db e h
    rcases savePort_rollback f now port db with h1 | ⟨v, hv⟩
    · exact h1
    · rw [hv] at h; cases h
  · intro f now rd db e h
    rcases cleanOldData_rollback f now rd db with h1 | ⟨v, hv⟩
    · exact h1
    · rw [hv] at h; cases h

/-- Witness for C6 at a concrete input: a failing `BEGIN` statement makes
`SaveDevice` return an error and leave the store untouched. -/
theorem c6_store_mutation_atomicity_witness :
    (saveDevice { beginTx := true } 0 devW6 emptyDB).2
        = .error "failed to begin transaction"
    ∧ (saveDevice { beginTx := true } 0 devW6 emptyDB).1 = emptyDB :=
  ⟨rfl, c6_store_mutation_atomicity.1 { beginTx := true } 0 devW6 emptyDB
    "failed to begin transaction" rfl⟩

/-- C4: starting from the freshly initialized store, after any sequence of
store mutations no two Device rows share `(ipAddress, macAddress)` (a null
MAC colliding only with a null MAC, by `Option` equality) and no two Port
rows share `(deviceId, portNumber, protocol)`; every operation preserves
the invariant along the fold. -/
theorem c4_uniqueness_invariant (ops : List StoreOp) :
    devicesUnique (ops.foldl (fun d op => applyOp op d) emptyDB) = true
    ∧ portsUnique (ops.foldl (fun d op => applyOp op d) emptyDB) = true := by
  have h := wf_foldl_applyOp ops emptyDB (by decide)
  rcases (dbWellFormed_iff _).mp h with ⟨_, _, h1, _, _, h2⟩
  exact ⟨h1, h2⟩

/-- C3: a `RunScan` or `RunManualScan` call made while a scan is in progress
returns the contention error immediately and leaves both the in-memory
state and the store (in particular the Scan rows) unchanged. -/
theorem c3_single_flight_rejection (oc : ScanOutcome) (ce : Option String)
    (tpl outPath cfgT : String) (params : ScanParameters) (now : Nat)
    (st : ScanServiceState) (db : DBState) (h : st.isScanning = true) :
    runScan oc ce tpl outPath cfgT now st db
        = (.error "a scan is already in progress", st, db)
    ∧ runManualScan oc ce params outPath cfgT now st db
        = (.error "a scan is already in progress", st, db) := by
  unfold runScan runManualScan
  rw [if_pos h, if_pos h]
  exact ⟨rfl, rfl⟩

/-- Witness for C3 at a concrete input. -/
theorem c3_single_flight_rejection_witness :
    runScan (.results ⟨[]⟩) none "default" "out.xml" "10.0.0.0/24" 0
        busyService emptyDB
      = (.error "a scan is already in progress", busyService, emptyDB) :=
  (c3_single_flight_rejection (.results ⟨[]⟩) none "default" "out.xml"
    "10.0.0.0/24" ⟨"default", "", 0, false, false⟩ 0 busyService emptyDB rfl).1

/-- C10: on the update path (the keyed lookup found a row), `SaveDevice`
never modifies `id`, `ip_address` or `first_seen` of any device row, and
`SavePort` never modifies `id`, `device_id`, `port_number`, `protocol` or
`first_seen` of any port row; row counts are unchanged as well (the
projections below are over the whole table). -/
theorem c10_update_path_frame :
    (∀ (f : SdFail) (now : Nat) (dev : DeviceIn) (db : DBState) (row : DeviceRow),
      db.devices.find? (deviceKeyMatches dev) = some row →
      (saveDevice f now dev db).1.devices.map (fun d => (d.id, d.ipAddress, d.firstSeen))
        = db.devices.map (fun d => (d.id, d.ipAddress, d.firstSeen)))
    ∧ (∀ (f : SpFail) (now : Nat) (port : PortIn) (db : DBState) (row : PortRow),
      db.ports.find? (portKeyMatches port) = some row →
      (savePort f now port db).1.ports.map
          (fun p => (p.id, p.deviceId, p.portNumber, p.protocol, p.firstSeen))
        = db.ports.map (fun p => (p.id, p.deviceId, p.portNumber, p.protocol, p.firstSeen))) := by
  constructor
  · intro f now dev db row hfind
    unfold saveDevice
    split
    · rfl
    split
    · rfl
    simp only [hfind]
    rcases saveDeviceUpdate_fst f now dev row db with heq | ⟨hdev, _, _, _⟩
    · rw [heq]
    rw [hdev, List.map_map]
    apply List.map_congr_left
    intro a ha
    rcases updatedDeviceFields_frame dev now row a with ⟨h1, h2, h3⟩
    simp [Function.comp, h1, h2, h3]
  · intro f now port db row hfind
    unfold savePort
    split
    · rfl
    split
    · rfl
    simp only [hfind]
    rcases savePortUpdate_fst f now port row db with heq | ⟨hpt, _, _, _⟩
    · rw [heq]
    rw [hpt, List.map_map]
    apply List.map_congr_left
    intro a ha
    rcases updatedPortFields_frame port now row a with ⟨h1, h2, h3, h4, h5⟩
    simp [Function.comp, h1, h2, h3, h4, h5]

/-- Witness for C10 at a concrete input: a hostname and a service-version
update leave the identity and origin projections unchanged. -/
theorem c10_update_path_frame_witness :
    (saveDevice {} 7200 devW10 dbW10).1.devices.map
        (fun d => (d.id, d.ipAddress, d.firstSeen)) = [(1, "192.168.1.5", 3600)]
    ∧ (savePort {} 7200 portW10 dbW10).1.ports.map
        (fun p => (p.id, p.deviceId, p.portNumber, p.protocol, p.firstSeen))
      = [(1, 1, 22, "tcp", 3600)] := by
  constructor
  · have h := c10_update_path_frame.1 {} 7200 devW10 dbW10
      { id := 1, ipAddress := "192.168.1.5", macAddress := some "00:11",
        hostname := "h", osFingerprint := "os", firstSeen := 3600,
        lastSeen := 3600 } (by decide)
    rw [h]; decide
  · have h := c10_update_path_frame.2 {} 7200 portW10 dbW10
      { id := 1, deviceId := 1, portNumber := 22, protocol := "tcp",
        serviceName := "ssh", serviceVersion := "8.0", firstSeen := 3600,
        lastSeen := 3600 } (by decide)
    rw [h]; decide

/-- C9: template resolution never fails — every name yields `.ok`; the four
known names aside, the lookup falls back to the built-in `default` template;
and a `RunScan` with an unknown name proceeds to a successful scan rather
than surfacing a template-lookup error. -/
theorem c9_unknown_template_fallback :
    (∀ name, ∃ t, getScanTemplate name = .ok t)
    ∧ (∀ name, name ≠ "default" → name ≠ "quick" → name ≠ "thorough" →
        name ≠ "stealth" → getScanTemplate name = .ok defaultScanTemplate)
    ∧ (∀ (name outPath cfgT : String) (now : Nat) (st : ScanServiceState)
        (db : DBState) (run : NmapRun), st.isScanning = false → cfgT ≠ "" →
        (runScan (.results run) none name outPath cfgT now st db).1
          = .ok db.nextScanId) := by
  refine ⟨?_, ?_, ?_⟩
  · intro name
    unfold getScanTemplate
    cases h : scanTemplates name <;> simp [h]
  · intro name h1 h2 h3 h4
    unfold getScanTemplate scanTemplates
    simp [beq_eq_false_iff_ne.mpr h1, beq_eq_false_iff_ne.mpr h2,
      beq_eq_false_iff_ne.mpr h3, beq_eq_false_iff_ne.mpr h4]
  · intro name outPath cfgT now st db run hscan hcfg
    unfold runScan
    simp only [hscan, Bool.false_eq_true, if_false]
    have hc : (cfgT == "") = false := beq_eq_false_iff_ne.mpr hcfg
    cases h : scanTemplates name <;>
      simp [getScanTemplate, h, prepareScanCommand, hc, scanExecutionPhase, createScan]

/-- Witness for C9 at a concrete input: the unknown name "nonsense" resolves
to the `default` template and a run with it succeeds. -/
theorem c9_unknown_template_fallback_witness :
    getScanTemplate "nonsense" = .ok defaultScanTemplate
    ∧ (runScan (.results ⟨[]⟩) none "nonsense" "out.xml" "10.0.0.0/24" 3600
        idleService emptyDB).1 = .ok 1 := by
  constructor
  · exact c9_unknown_template_fallback.2.1 "nonsense" (by decide) (by decide)
      (by decide) (by decide)
  · exact c9_unknown_template_fallback.2.2 "nonsense" "out.xml" "10.0.0.0/24"
      3600 idleService emptyDB ⟨[]⟩ rfl (by decide)

theorem saveDevice_happy_update (now : Nat) (dev : DeviceIn) (db : DBState)
    (row : DeviceRow) (hfind : db.devices.find? (deviceKeyMatches dev) = some row) :
    saveDevice {} now dev db = saveDeviceUpdate {} now dev row db := by
  unfold saveDevice
  simp [hfind]

/-- C2 (amended): on `SaveDevice`'s update path, a `device_change` Change
(whose details list exactly the fields that changed, per
`deviceChangeDetails`) is appended exactly when some non-empty incoming
field differs from storage; when no field differs but the incoming
`lastSeen` is within the last hour the row is still updated (its `lastSeen`
refreshed, empty fields preserved) with no Change; otherwise nothing
happens. -/
theorem c2_device_change_detection (now : Nat) (dev : DeviceIn) (db : DBState)
    (row : DeviceRow) (hfind : db.devices.find? (deviceKeyMatches dev) = some row) :
    (saveDevice {} now dev db).2 = .ok row.id
    ∧ (deviceHasChanges dev row = true →
        (saveDevice {} now dev db).1.changes
          = db.changes ++ [{ id := db.nextChangeId,
                             scanId := latestScanId db,
                             deviceId := row.id,
                             changeType := "device_change",
                             details := deviceChangeDetails dev row,
                             timestamp := now }]
        ∧ (saveDevice {} now dev db).1.devices
          = db.devices.map (updatedDeviceFields dev now row))
    ∧ (deviceHasChanges dev row = false → now < dev.lastSeen + 3600 →
        (saveDevice {} now dev db).1.changes = db.changes
        ∧ (saveDevice {} now dev db).1.devices
          = db.devices.map (updatedDeviceFields dev now row))
    ∧ (deviceHasChanges dev row = false → ¬ now < dev.lastSeen + 3600 →
        (saveDevice {} now dev db).1 = db) := by
  rw [saveDevice_happy_update now dev db row hfind]
  unfold saveDeviceUpdate
  refine ⟨?_, ?_, ?_, ?_⟩
  · by_cases hch : deviceHasChanges dev row = true <;>
      by_cases hfr : now < dev.lastSeen + 3600 <;>
      simp [hch, hfr, appendChange]
  · intro hch
    simp [hch, appendChange, latestScanId]
  · intro hch hfr
    simp [hch, hfr, appendChange]
  · intro hch hfr
    simp [hch, hfr]

/-- Counterexample to C2 as stated: at this input the device is present, no
non-empty field differs, and the observation's `lastSeen` (and the stored
row's) is within the last hour, so the claim demands an update AND an
appended `device_change`; the code updates the row (its `lastSeen` moves to
the rounded hour 7200) but appends no Change at all. -/
theorem c2_fresh_update_appends_no_change :
    dbC2.devices.find? (deviceKeyMatches devC2) = some rowC2
    ∧ deviceHasChanges devC2 rowC2 = false
    ∧ (10000 : Nat) < devC2.lastSeen + 3600
    ∧ 10000 - 3600 < rowC2.lastSeen
    ∧ (saveDevice {} 10000 devC2 dbC2).1.devices.map (fun d => d.lastSeen) = [7200]
    ∧ (saveDevice {} 10000 devC2 dbC2).1.changes = [] := by
  decide

/-- Witness for C2 at a concrete input: a hostname-only change appends one
`device_change` whose details mention only the hostname transition. -/
theorem c2_device_change_detection_witness :
    (saveDevice {} 10000 devC2w dbC2).2 = .ok 1
    ∧ (saveDevice {} 10000 devC2w dbC2).1.changes
        = [{ id := 1, scanId := 1, deviceId := 1, changeType := "device_change",
             details := "Hostname changed: host1 -> host2; ", timestamp := 10000 }] := by
  have h := c2_device_change_detection 10000 devC2w dbC2 rowC2 (by decide)
  refine ⟨h.1, ?_⟩
  rw [(h.2.1 (by decide)).1]
  decide

theorem scans_map_update_id (db : DBState)
    (hbnd : db.scans.all (fun s => decide (s.id < db.nextScanId)) = true)
    (g : ScanRow → ScanRow) :
    List.map (fun s => if s.id = db.nextScanId then g s else s) db.scans
      = db.scans := by
  have h : ∀ s ∈ db.scans, (if s.id = db.nextScanId then g s else s) = s := by
    intro s hs
    exact if_neg (Nat.ne_of_lt (of_decide_eq_true (List.all_eq_true.mp hbnd s hs)))
  rw [List.map_congr_left h]
  simp

theorem runScan_results_ok (name outPath cfgT : String) (now : Nat)
    (st : ScanServiceState) (db : DBState) (run : NmapRun)
    (hscan : st.isScanning = false) (hcfg : cfgT ≠ "") :
    (runScan (.results run) none name outPath cfgT now st db).1 = .ok db.nextScanId := by
  unfold runScan
  simp only [hscan, Bool.false_eq_true, if_false]
  have hc : (cfgT == "") = false := beq_eq_false_iff_ne.mpr hcfg
  cases h : scanTemplates name <;>
    simp [getScanTemplate, h, prepareScanCommand, hc, scanExecutionPhase, createScan]

theorem runScan_exitNonZero_spec (m tpl outPath cfgT : String) (now : Nat)
    (st : ScanServiceState) (db : DBState)
    (hidle : st.isScanning = false) (hcfg : cfgT ≠ "")
    (hbnd : db.scans.all (fun s => decide (s.id < db.nextScanId)) = true) :
    (runScan (.exitNonZero m) none tpl outPath cfgT now st db).1
        = .error ("nmap command failed: " ++ m)
    ∧ (runScan (.exitNonZero m) none tpl outPath cfgT now st db).2.1.isScanning = false
    ∧ (runScan (.exitNonZero m) none tpl outPath cfgT now st db).2.1.scanStats.status = "error"
    ∧ (runScan (.exitNonZero m) none tpl outPath cfgT now st db).2.1.scanStats.error
        = some ("nmap command failed: " ++ m)
    ∧ (runScan (.exitNonZero m) none tpl outPath cfgT now st db).2.2.scans
        = db.scans ++ [{ id := db.nextScanId,
                         timestamp := now,
                         template := tpl,
                         duration := 0,
                         devicesFound := 0,
                         portsFound := 0,
                         status := "error",
                         errorMessage := some "" }] := by
  have hc : (cfgT == "") = false := beq_eq_false_iff_ne.mpr hcfg
  unfold runScan
  simp only [hidle, Bool.false_eq_true, if_false]
  cases h : scanTemplates tpl <;>
    simp [getScanTemplate, h, prepareScanCommand, hc, scanExecutionPhase,
      createScan, updateScanInDB, updateScan, Nat.sub_self, finishScan,
      updateScanErrorStats] <;>
    exact scans_map_update_id db hbnd _

theorem runScan_startFailure_spec (m tpl outPath cfgT : String) (now : Nat)
    (st : ScanServiceState) (db : DBState)
    (hidle : st.isScanning = false) (hcfg : cfgT ≠ "")
    (hbnd : db.scans.all (fun s => decide (s.id < db.nextScanId)) = true) :
    (runScan (.startFailure m) none tpl outPath cfgT now st db).1
        = .error ("failed to start nmap: " ++ m)
    ∧ (runScan (.startFailure m) none tpl outPath cfgT now st db).2.1.isScanning = false
    ∧ (runScan (.startFailure m) none tpl outPath cfgT now st db).2.1.scanStats.status = "error"
    ∧ (runScan (.startFailure m) none tpl outPath cfgT now st db).2.1.scanStats.error
        = some ("failed to start nmap: " ++ m)
    ∧ (runScan (.startFailure m) none tpl outPath cfgT now st db).2.2.scans
        = db.scans ++ [{ id := db.nextScanId,
                         timestamp := now,
                         template := tpl,
                         duration := 0,
                         devicesFound := 0,
                         portsFound := 0,
                         status := "error",
                         errorMessage := some "" }] := by
  have hc : (cfgT == "") = false := beq_eq_false_iff_ne.mpr hcfg
  unfold runScan
  simp only [hidle, Bool.false_eq_true, if_false]
  cases h : scanTemplates tpl <;>
    simp [getScanTemplate, h, prepareScanCommand, hc, scanExecutionPhase,
      createScan, updateScanInDB, updateScan, Nat.sub_self, finishScan,
      updateScanErrorStats] <;>
    exact scans_map_update_id db hbnd _

/-- C1 (amended): when the subprocess fails to start or exits non-zero, the
run returns the wrapped error, the in-memory status transitions to `error`
holding the wrapped error text, the scan's row is updated to status `error`
with zero counts — but its `error_message` is set to the empty string, not
the error text (`updateScanInDB` always passes `""` to `UpdateScan`) — the
scanning flag is cleared, and a subsequent `RunScan` is accepted and
succeeds. -/
theorem c1_subprocess_failure_handling (m tpl outPath cfgT : String)
    (now : Nat) (st : ScanServiceState) (db : DBState)
    (hidle : st.isScanning = false) (hcfg : cfgT ≠ "")
    (hbnd : db.scans.all (fun s => decide (s.id < db.nextScanId)) = true) :
    ((runScan (.exitNonZero m) none tpl outPath cfgT now st db).1
        = .error ("nmap command failed: " ++ m)
      ∧ (runScan (.exitNonZero m) none tpl outPath cfgT now st db).2.1.isScanning = false
      ∧ (runScan (.exitNonZero m) none tpl outPath cfgT now st db).2.1.scanStats.status = "error"
      ∧ (runScan (.exitNonZero m) none tpl outPath cfgT now st db).2.1.scanStats.error
          = some ("nmap command failed: " ++ m)
      ∧ (runScan (.exitNonZero m) none tpl outPath cfgT now st db).2.2.scans
          = db.scans ++ [{ id := db.nextScanId,
                           timestamp := now,
                           template := tpl,
                           duration := 0,
                           devicesFound := 0,
                           portsFound := 0,
                           status := "error",
                           errorMessage := some "" }])
    ∧ ((runScan (.startFailure m) none tpl outPath cfgT now st db).1
        = .error ("failed to start nmap: " ++ m)
      ∧ (runScan (.startFailure m) none tpl outPath cfgT now st db).2.1.isScanning = false
      ∧ (runScan (.startFailure m) none tpl outPath cfgT now st db).2.1.scanStats.status = "error"
      ∧ (runScan (.startFailure m) none tpl outPath cfgT now st db).2.1.scanStats.error
          = some ("failed to start nmap: " ++ m)
      ∧ (runScan (.startFailure m) none tpl outPath cfgT now st db).2.2.scans
          = db.scans ++ [{ id := db.nextScanId,
                           timestamp := now,
                           template := tpl,
                           duration := 0,
                           devicesFound := 0,
                           portsFound := 0,
                           status := "error",
                           errorMessage := some "" }])
    ∧ (∀ (run : NmapRun) (outPath2 : String),
        (runScan (.results run) none tpl outPath2 cfgT now
            (runScan (.exitNonZero m) none tpl outPath cfgT now st db).2.1
            (runScan (.exitNonZero m) none tpl outPath cfgT now st db).2.2).1
          = .ok (runScan (.exitNonZero m) none tpl outPath cfgT now st db).2.2.nextScanId) := by
  refine ⟨runScan_exitNonZero_spec m tpl outPath cfgT now st db hidle hcfg hbnd,
    runScan_startFailure_spec m tpl outPath cfgT now st db hidle hcfg hbnd, ?_⟩
  intro run outPath2
  exact runScan_results_ok tpl outPath2 cfgT now _ _ run
    (runScan_exitNonZero_spec m tpl outPath cfgT now st db hidle hcfg hbnd).2.1 hcfg

/-- Counterexample to C1 as stated: after a non-zero exit at this concrete
input, the Scan row's status is `error` with zero counts, but its
`error_message` holds the empty string, not the error text — the error text
lives only in the in-memory status. -/
theorem c1_error_text_not_in_row :
    (runScan (.exitNonZero "exit status 1") none "default" "scan.xml"
        "10.0.0.0/24" 5000 idleService emptyDB).2.1.scanStats.error
      = some ("nmap command failed: exit status 1")
    ∧ (runScan (.exitNonZero "exit status 1") none "default" "scan.xml"
        "10.0.0.0/24" 5000 idleService emptyDB).2.2.scans.map
          (fun s => (s.status, s.devicesFound, s.portsFound, s.errorMessage))
      = [("error", 0, 0, some "")]
    ∧ some "" ≠ some ("nmap command failed: exit status 1") := by
  refine ⟨?_, ?_, by decide⟩ <;> decide

/-- Witness for C1 at a concrete input. -/
theorem c1_subprocess_failure_handling_witness :
    (runScan (.exitNonZero "exit status 2") none "quick" "scan.xml"
        "192.168.0.0/16" 7200 idleService emptyDB).1
      = .error ("nmap command failed: exit status 2")
    ∧ (runScan (.exitNonZero "exit status 2") none "quick" "scan.xml"
        "192.168.0.0/16" 7200 idleService emptyDB).2.1.isScanning = false := by
  have h := c1_subprocess_failure_handling "exit status 2" "quick" "scan.xml"
    "192.168.0.0/16" 7200 idleService emptyDB rfl (by decide) (by decide)
  exact ⟨h.1.1, h.1.2.1⟩

theorem getScanTemplate_eq (name : String) :
    getScanTemplate name = .ok (templateOrDefault name) := by
  unfold getScanTemplate templateOrDefault
  cases h : scanTemplates name <;> simp

theorem templateOrDefault_no_pn (name : String) :
    ∀ a ∈ (templateOrDefault name).nmapArgs, a ≠ "-Pn" := by
  unfold templateOrDefault scanTemplates
  by_cases h1 : (name == "default") = true
  · simp [h1]; decide
  by_cases h2 : (name == "quick") = true
  · simp [h1, h2]
  by_cases h3 : (name == "thorough") = true
  · simp [h1, h2, h3]
  by_cases h4 : (name == "stealth") = true
  · simp [h1, h2, h3, h4]
  · simp [h1, h2, h3, h4]; decide

theorem ne_pdash_of_nopre {s : String} (h : strStartsWith s "-p" = false) :
    s ≠ "-p-" := by
  intro heq
  subst heq
  exact absurd h (by decide)

theorem not_mem_pn_base {outPath : String} {l : List String}
    (houtn : outPath ≠ "-Pn") (hl : ∀ a ∈ l, a ≠ "-Pn") :
    ("-Pn" ∉ ["-oX", outPath] ++ l) := by
  intro hmem
  rcases List.mem_append.mp hmem with h | h
  · rcases List.mem_cons.mp h with h1 | h1
    · exact absurd h1 (by decide)
    · rw [List.mem_singleton] at h1
      exact houtn h1.symm
  · exact hl _ h rfl

theorem contains_pn_false {l : List String} (h : "-Pn" ∉ l) :
    l.contains "-Pn" = false := by
  rw [Bool.eq_false_iff]
  intro hc
  rcases List.contains_iff_exists_mem_beq.mp hc with ⟨b, hb, hbeq⟩
  rw [eq_of_beq hbeq] at h
  exact h hb

theorem prepareManual_overrides (t : ScanTemplate) (outPath : String)
    (params : ScanParameters) (cfgT tgt : String) (rl : Int)
    (htgtdef : (if params.targetNetwork != "" then params.targetNetwork else cfgT) = tgt)
    (hrldef : (if params.rateLimit > 0 then params.rateLimit else t.rateLimit) = rl)
    (hPn : ∀ a ∈ t.nmapArgs, a ≠ "-Pn")
    (htgt : (tgt == "") = false)
    (htgtp : strStartsWith tgt "-p" = false)
    (htgtn : tgt ≠ "-Pn")
    (houtp : strStartsWith outPath "-p" = false)
    (houtn : outPath ≠ "-Pn")
    (hrp : strStartsWith (toString rl) "-p" = false)
    (hrn : toString rl ≠ "-Pn") :
    ∃ args, prepareManualScanCommand t outPath params cfgT = .ok args
      ∧ (params.scanAllPorts = true →
          (∀ a ∈ args, strStartsWith a "-p" = true → a = "-p-")
          ∧ args.count "-p-" = 1)
      ∧ (params.disablePing = true → args.count "-Pn" = 1) := by
  have hout_ne : outPath ≠ "-p-" := ne_pdash_of_nopre houtp
  have htgt_ne : tgt ≠ "-p-" := ne_pdash_of_nopre htgtp
  have hr_ne : toString rl ≠ "-p-" := ne_pdash_of_nopre hrp
  have hfilt_nop : ∀ a ∈ t.nmapArgs.filter (fun a => ! strStartsWith a "-p"),
      strStartsWith a "-p" = false := by
    intro a ha
    have := (List.mem_filter.mp ha).2
    rwa [Bool.not_eq_true'] at this
  have hfilt_nopn : ∀ a ∈ t.nmapArgs.filter (fun a => ! strStartsWith a "-p"),
      a ≠ "-Pn" := fun a ha => hPn a (List.mem_of_mem_filter ha)
  have hpn_notmem : "-Pn" ∉ t.nmapArgs := fun h => hPn _ h rfl
  have hpn_filt_notmem : "-Pn" ∉ t.nmapArgs.filter (fun a => ! strStartsWith a "-p") :=
    fun h => hfilt_nopn _ h rfl
  have hpd_filt_notmem : "-p-" ∉ t.nmapArgs.filter (fun a => ! strStartsWith a "-p") := by
    intro h
    exact absurd (hfilt_nop _ h) (by decide)
  by_cases hsap : params.scanAllPorts = true
  · have hcont : (["-oX", outPath] ++
        t.nmapArgs.filter (fun a => ! strStartsWith a "-p") ++ ["-p-"]).contains "-Pn"
        = false := by
      apply contains_pn_false
      intro hmem
      rcases List.mem_append.mp hmem with h | h
      · exact not_mem_pn_base houtn hfilt_nopn h
      · rw [List.mem_singleton] at h
        exact absurd h (by decide)
    by_cases hdp : params.disablePing = true
    · have heq : prepareManualScanCommand t outPath params cfgT
          = .ok ("-oX" :: outPath ::
              (t.nmapArgs.filter (fun a => ! strStartsWith a "-p")
                ++ ["-p-", "-Pn", "--max-rate", toString rl, tgt])) := by
        unfold prepareManualScanCommand
        rw [htgtdef, hrldef]
        simp only [hsap, hdp, eq_self_iff_true, if_true, hcont, Bool.not_false,
          Bool.and_self, Bool.true_and, Bool.and_true]
        simp [htgt]
      refine ⟨_, heq, fun _ => ⟨?_, ?_⟩, fun _ => ?_⟩
      · intro a ha hpre
        simp only [List.mem_cons, List.mem_append, List.mem_singleton,
          List.not_mem_nil, or_false] at ha
        rcases ha with rfl | rfl | ha | rfl | rfl | rfl | rfl | rfl
        · exact absurd hpre (by decide)
        · rw [houtp] at hpre; cases hpre
        · rw [hfilt_nop a ha] at hpre; cases hpre
        · rfl
        · exact absurd hpre (by decide)
        · exact absurd hpre (by decide)
        · rw [hrp] at hpre; cases hpre
        · rw [htgtp] at hpre; cases hpre
      · simp only [List.count_cons, List.count_append]
        rw [List.count_eq_zero.mpr hpd_filt_notmem]
        simp [List.count_cons, hr_ne, htgt_ne, hout_ne, Ne.symm hr_ne, Ne.symm htgt_ne, Ne.symm hout_ne]
      · simp only [List.count_cons, List.count_append]
        rw [List.count_eq_zero.mpr hpn_filt_notmem]
        simp [List.count_cons, hrn, htgtn, houtn, Ne.symm hrn, Ne.symm htgtn, Ne.symm houtn]
    · have hdp' : params.disablePing = false := Bool.eq_false_iff.mpr hdp
      have heq : prepareManualScanCommand t outPath params cfgT
          = .ok ("-oX" :: outPath ::
              (t.nmapArgs.filter (fun a => ! strStartsWith a "-p")
                ++ ["-p-", "--max-rate", toString rl, tgt])) := by
        unfold prepareManualScanCommand
        rw [htgtdef, hrldef]
        simp only [hsap, hdp', eq_self_iff_true, if_true, Bool.false_and,
          Bool.false_eq_true, if_false]
        simp [htgt]
      refine ⟨_, heq, fun _ => ⟨?_, ?_⟩, fun hdp2 => absurd hdp2 hdp⟩
      · intro a ha hpre
        simp only [List.mem_cons, List.mem_append, List.mem_singleton,
          List.not_mem_nil, or_false] at ha
        rcases ha with rfl | rfl | ha | rfl | rfl | rfl | rfl
        · exact absurd hpre (by decide)
        · rw [houtp] at hpre; cases hpre
        · rw [hfilt_nop a ha] at hpre; cases hpre
        · rfl
        · exact absurd hpre (by decide)
        · rw [hrp] at hpre; cases hpre
        · rw [htgtp] at hpre; cases hpre
      · simp only [List.count_cons, List.count_append]
        rw [List.count_eq_zero.mpr hpd_filt_notmem]
        simp [List.count_cons, hr_ne, htgt_ne, hout_ne, Ne.symm hr_ne, Ne.symm htgt_ne, Ne.symm hout_ne]
  · have hsap' : params.scanAllPorts = false := Bool.eq_false_iff.mpr hsap
    have hcont : (["-oX", outPath] ++ t.nmapArgs).contains "-Pn" = false :=
      contains_pn_false (not_mem_pn_base houtn hPn)
    by_cases hdp : params.disablePing = true
    · have heq : prepareManualScanCommand t outPath params cfgT
          = .ok ("-oX" :: outPath ::
              (t.nmapArgs ++ ["-Pn", "--max-rate", toString rl, tgt])) := by
        unfold prepareManualScanCommand
        rw [htgtdef, hrldef]
        simp only [hsap', hdp, Bool.false_eq_true, if_false, hcont,
          Bool.not_false, Bool.and_self, Bool.true_and, Bool.and_true]
        simp [htgt]
      refine ⟨_, heq, fun hsap2 => absurd hsap2 hsap, fun _ => ?_⟩
      simp only [List.count_cons, List.count_append]
      rw [List.count_eq_zero.mpr hpn_notmem]
      simp [List.count_cons, hrn, htgtn, houtn, Ne.symm hrn, Ne.symm htgtn, Ne.symm houtn]
    · have hdp' : params.disablePing = false := Bool.eq_false_iff.mpr hdp
      have heq : prepareManualScanCommand t outPath params cfgT
          = .ok ("-oX" :: outPath ::
              (t.nmapArgs ++ ["--max-rate", toString rl, tgt])) := by
        unfold prepareManualScanCommand
        rw [htgtdef, hrldef]
        simp only [hsap', hdp', Bool.false_eq_true, if_false, Bool.false_and]
        simp [htgt]
      exact ⟨_, heq, fun hsap2 => absurd hsap2 hsap, fun hdp2 => absurd hdp2 hdp⟩

/-- C8: for every template name (resolution never failing, by
`getScanTemplate`), the manual-scan override construction satisfies: with
"scan all ports" set, the argument list keeps no template argument starting
with `-p` (every `-p`-prefixed argument of the result is the all-ports flag
itself) and contains `-p-` exactly once; with "disable ping" set, `-Pn`
appears exactly once whether or not the template contained it.  The side
conditions only pin the output path, resolved target and rate string away
from the two literal flags. -/
theorem c8_manual_scan_overrides (name outPath : String)
    (params : ScanParameters) (cfgT tgt : String) (rl : Int)
    (htgtdef : (if params.targetNetwork != "" then params.targetNetwork else cfgT) = tgt)
    (hrldef : (if params.rateLimit > 0 then params.rateLimit
        else (templateOrDefault name).rateLimit) = rl)
    (htgt : (tgt == "") = false)
    (htgtp : strStartsWith tgt "-p" = false)
    (htgtn : tgt ≠ "-Pn")
    (houtp : strStartsWith outPath "-p" = false)
    (houtn : outPath ≠ "-Pn")
    (hrp : strStartsWith (toString rl) "-p" = false)
    (hrn : toString rl ≠ "-Pn") :
    getScanTemplate name = .ok (templateOrDefault name)
    ∧ ∃ args, prepareManualScanCommand (templateOrDefault name) outPath params cfgT
          = .ok args
      ∧ (params.scanAllPorts = true →
          (∀ a ∈ args, strStartsWith a "-p" = true → a = "-p-")
          ∧ args.count "-p-" = 1)
      ∧ (params.disablePing = true → args.count "-Pn" = 1) :=
  ⟨getScanTemplate_eq name,
   prepareManual_overrides (templateOrDefault name) outPath params cfgT tgt rl
     htgtdef hrldef (templateOrDefault_no_pn name) htgt htgtp htgtn houtp houtn
     hrp hrn⟩

/-- Witness for C8 at a concrete input: the `thorough` template (which
carries a `-p-` port argument of its own) under both overrides yields one
`-p-` and one `-Pn`. -/
theorem c8_manual_scan_overrides_witness :
    ((prepareManualScanCommand (templateOrDefault "thorough") "out.xml"
        paramsW8 "").toOption.getD []).count "-p-" = 1
    ∧ ((prepareManualScanCommand (templateOrDefault "thorough") "out.xml"
        paramsW8 "").toOption.getD []).count "-Pn" = 1 := by
  obtain ⟨args, h1, h2, h3⟩ :=
    (c8_manual_scan_overrides "thorough" "out.xml" paramsW8 "" "10.0.0.0/24" 500
      (by decide) (by decide) (by decide) (by decide) (by decide) (by decide)
      (by decide) (by decide) (by decide)).2
  rw [h1]
  exact ⟨(h2 rfl).2, h3 rfl⟩

theorem filter_length_one_of_noDupBy {α : Type} (k : α → α → Bool) (p : α → Bool)
    (hcompat : ∀ a b, p a = true → p b = true → k a b = true)
    (l : List α) (hnd : noDupBy k l = true) (x : α) (hx : x ∈ l)
    (hpx : p x = true) : (l.filter p).length = 1 := by
  induction l with
  | nil => cases hx
  | cons y ys ih =>
    rw [noDupBy, Bool.and_eq_true] at hnd
    rcases hnd with ⟨hall, htail⟩
    cases hpy : p y
    · have hx' : x ∈ ys := by
        rcases List.mem_cons.mp hx with rfl | h
        · rw [hpx] at hpy; cases hpy
        · exact h
      rw [List.filter_cons_of_neg (by simp [hpy])]
      exact ih htail hx'
    · have hnone : ∀ a ∈ ys, ¬ p a = true := by
        intro a ha hpa
        have hk := hcompat y a hpy hpa
        have := List.all_eq_true.mp hall a ha
        rw [hk] at this
        cases this
      rw [List.filter_cons_of_pos hpy, List.filter_eq_nil_iff.mpr hnone]
      rfl

theorem beq_symm_lawful {α : Type} [BEq α] [LawfulBEq α] (x y : α) :
    (x == y) = (y == x) := by
  by_cases h : x = y
  · simp [h]
  · rw [beq_eq_false_iff_ne.mpr h, beq_eq_false_iff_ne.mpr (Ne.symm h)]

theorem devKeyEq_symm (x y : DeviceRow) : devKeyEq x y = devKeyEq y x := by
  unfold devKeyEq
  rw [beq_symm_lawful x.ipAddress y.ipAddress,
    beq_symm_lawful x.macAddress y.macAddress]

theorem portKeyEq_symm (x y : PortRow) : portKeyEq x y = portKeyEq y x := by
  unfold portKeyEq
  rw [beq_symm_lawful x.deviceId y.deviceId,
    beq_symm_lawful x.portNumber y.portNumber,
    beq_symm_lawful x.protocol y.protocol]

theorem saveDeviceInsert_happy_devices (now : Nat) (dev : DeviceIn) (db : DBState) :
    (saveDeviceInsert {} now dev db).1.devices
      = db.devices ++ [newDeviceRow dev now db.nextDeviceId] := by
  simp [saveDeviceInsert, appendChange]

theorem deviceKeyMatches_newRow (dev : DeviceIn) (now id : Nat) :
    deviceKeyMatches dev (newDeviceRow dev now id) = true := by
  simp [deviceKeyMatches, newDeviceRow]

theorem deviceKeyMatches_compat (dev : DeviceIn) (a b : DeviceRow)
    (ha : deviceKeyMatches dev a = true) (hb : deviceKeyMatches dev b = true) :
    devKeyEq a b = true := by
  rcases (deviceKeyMatches_iff dev a).mp ha with ⟨h1, h2⟩
  rcases (deviceKeyMatches_iff dev b).mp hb with ⟨h3, h4⟩
  simp [devKeyEq, h1, h2, h3, h4]

theorem updatedDeviceFields_pred (dev : DeviceIn) (now : Nat) (row : DeviceRow)
    (l : List DeviceRow) (hids : noDupBy devIdEq l = true) (hmem : row ∈ l)
    (hkey : deviceKeyMatches dev row = true) :
    ∀ a ∈ l, deviceKeyMatches dev (updatedDeviceFields dev now row a)
      = deviceKeyMatches dev a := by
  intro a ha
  rcases updatedDeviceFields_mem_key dev now row l hids hmem hkey a ha with ⟨h1, h2⟩
  simp [deviceKeyMatches, h1, h2]

theorem saveDevice_filter_one (now : Nat) (dev : DeviceIn) (db : DBState)
    (hids : noDupBy devIdEq db.devices = true)
    (huniq : noDupBy devKeyEq db.devices = true) :
    (((saveDevice {} now dev db).1.devices.filter (deviceKeyMatches dev)).length
      = 1) := by
  unfold saveDevice
  cases hfind : db.devices.find? (deviceKeyMatches dev) with
  | none =>
    simp only [hfind, Bool.false_eq_true, if_false]
    rw [saveDeviceInsert_happy_devices, List.filter_append]
    rw [List.filter_eq_nil_iff.mpr (by
      intro a ha hpa
      exact List.find?_eq_none.mp hfind a ha hpa)]
    rw [List.filter_cons_of_pos (deviceKeyMatches_newRow dev now db.nextDeviceId)]
    rfl
  | some row =>
    simp only [hfind, Bool.false_eq_true, if_false]
    have hmem : row ∈ db.devices := List.mem_of_find?_eq_some hfind
    have hkey : deviceKeyMatches dev row = true := List.find?_some hfind
    have hone : ((db.devices.filter (deviceKeyMatches dev)).length = 1) :=
      filter_length_one_of_noDupBy devKeyEq (deviceKeyMatches dev)
        (deviceKeyMatches_compat dev) db.devices huniq row hmem hkey
    rcases saveDeviceUpdate_fst {} now dev row db with heq | ⟨hdev, _, _, _⟩
    · rw [heq]
      exact hone
    rw [hdev, List.filter_map,
      List.length_map, List.filter_congr
        (fun a ha => by
          rw [Function.comp_apply,
            updatedDeviceFields_pred dev now row db.devices hids hmem hkey a ha])]
    exact hone

theorem deviceHasChanges_false_parts {dev : DeviceIn} {row : DeviceRow}
    (hkey : deviceKeyMatches dev row = true)
    (hhost : dev.hostname = "" ∨ row.hostname = dev.hostname)
    (hos : dev.osFingerprint = "" ∨ row.osFingerprint = dev.osFingerprint) :
    deviceHasChanges dev row = false := by
  rcases (deviceKeyMatches_iff dev row).mp hkey with ⟨hip, hmac⟩
  unfold deviceHasChanges
  rw [hmac]
  rcases hhost with h1 | h1 <;> rcases hos with h2 | h2 <;>
    simp [h1, h2, Option.getD]

theorem saveDevice_matched_props (now : Nat) (dev : DeviceIn) (db : DBState)
    (hids : noDupBy devIdEq db.devices = true)
    (huniq : noDupBy devKeyEq db.devices = true) :
    ∀ r ∈ (saveDevice {} now dev db).1.devices,
      deviceKeyMatches dev r = true →
      (dev.hostname = "" ∨ r.hostname = dev.hostname)
      ∧ (dev.osFingerprint = "" ∨ r.osFingerprint = dev.osFingerprint) := by
  unfold saveDevice
  cases hfind : db.devices.find? (deviceKeyMatches dev) with
  | none =>
    simp only [hfind, Bool.false_eq_true, if_false]
    rw [saveDeviceInsert_happy_devices]
    intro r hr hpred
    rcases List.mem_append.mp hr with h | h
    · exact absurd hpred (List.find?_eq_none.mp hfind r h)
    · rw [List.mem_singleton] at h
      subst h
      exact ⟨Or.inr rfl, Or.inr rfl⟩
  | some row =>
    simp only [hfind, Bool.false_eq_true, if_false]
    have hmem : row ∈ db.devices := List.mem_of_find?_eq_some hfind
    have hkey : deviceKeyMatches dev row = true := List.find?_some hfind
    unfold saveDeviceUpdate
    by_cases hc : (deviceHasChanges dev row || decide (now < dev.lastSeen + 3600)) = true
    · have hmain : ∀ r ∈ db.devices.map (updatedDeviceFields dev now row),
          deviceKeyMatches dev r = true →
          (dev.hostname = "" ∨ r.hostname = dev.hostname)
          ∧ (dev.osFingerprint = "" ∨ r.osFingerprint = dev.osFingerprint) := by
        intro r hr hpred
        rcases List.mem_map.mp hr with ⟨a, ha, rfl⟩
        have hpred_a : deviceKeyMatches dev a = true := by
          rwa [updatedDeviceFields_pred dev now row db.devices hids hmem hkey a ha]
            at hpred
        have haeq : a = row := eq_of_noDupBy devKeyEq_symm huniq ha hmem
          (deviceKeyMatches_compat dev a row hpred_a hkey)
        subst haeq
        unfold updatedDeviceFields
        simp only [beq_self_eq_true, if_true]
        constructor
        · by_cases hh : dev.hostname = ""
          · exact Or.inl hh
          · right
            simp [hh]
        · by_cases hh : dev.osFingerprint = ""
          · exact Or.inl hh
          · right
            simp [hh]
      by_cases hch : deviceHasChanges dev row = true
      · simp only [hc, hch, eq_self_iff_true, Bool.true_or, if_true,
          Bool.false_eq_true, if_false, appendChange]
        exact hmain
      · have hfr : now < dev.lastSeen + 3600 := by
          rcases Bool.or_eq_true_iff.mp hc with h | h
          · exact absurd h hch
          · exact of_decide_eq_true h
        simp only [hc, hch, hfr, decide_eq_true_eq, eq_self_iff_true,
          Bool.false_or, Bool.false_eq_true, if_true, if_false, decide_True]
        exact hmain
    · have hc' : (deviceHasChanges dev row || decide (now < dev.lastSeen + 3600)) = false :=
        Bool.eq_false_iff.mpr hc
      rcases Bool.or_eq_false_iff.mp hc' with ⟨hch, _⟩
      simp only [hc', Bool.false_eq_true, if_false]
      intro r hr hpred
      have hreq : r = row := eq_of_noDupBy devKeyEq_symm huniq hr hmem
        (deviceKeyMatches_compat dev r row hpred hkey)
      subst hreq
      unfold deviceHasChanges at hch
      rcases Bool.or_eq_false_iff.mp hch with ⟨hch1, hch3⟩
      rcases Bool.or_eq_false_iff.mp hch1 with ⟨_, hch2⟩
      constructor
      · rcases Bool.and_eq_false_iff.mp hch2 with h | h
        · exact Or.inr (bne_eq_false_iff_eq.mp h).symm
        · exact Or.inl (bne_eq_false_iff_eq.mp h)
      · rcases Bool.and_eq_false_iff.mp hch3 with h | h
        · exact Or.inr (bne_eq_false_iff_eq.mp h).symm
        · exact Or.inl (bne_eq_false_iff_eq.mp h)

theorem saveDevice_nochange (now : Nat) (dev : DeviceIn) (db : DBState)
    (row : DeviceRow)
    (hfind : db.devices.find? (deviceKeyMatches dev) = some row)
    (hhost : dev.hostname = "" ∨ row.hostname = dev.hostname)
    (hos : dev.osFingerprint = "" ∨ row.osFingerprint = dev.osFingerprint) :
    (saveDevice {} now dev db).1.changes = db.changes
    ∧ (saveDevice {} now dev db).1.devices.length = db.devices.length := by
  have hkey : deviceKeyMatches dev row = true := List.find?_some hfind
  have hch : deviceHasChanges dev row = false :=
    deviceHasChanges_false_parts hkey hhost hos
  rw [saveDevice_happy_update now dev db row hfind]
  unfold saveDeviceUpdate
  by_cases hfr : now < dev.lastSeen + 3600 <;>
    simp [hch, hfr]

theorem saveDevice_changes_le (now : Nat) (dev : DeviceIn) (db : DBState) :
    (saveDevice {} now dev db).1.changes.length ≤ db.changes.length + 1 := by
  unfold saveDevice
  cases hfind : db.devices.find? (deviceKeyMatches dev) with
  | none =>
    simp only [hfind, Bool.false_eq_true, if_false]
    simp [saveDeviceInsert, appendChange]
  | some row =>
    simp only [hfind, Bool.false_eq_true, if_false]
    unfold saveDeviceUpdate
    by_cases hch : deviceHasChanges dev row = true <;>
      by_cases hfr : now < dev.lastSeen + 3600 <;>
        simp [hch, hfr, appendChange]

theorem saveDevice_find_some (now : Nat) (dev : DeviceIn) (db : DBState)
    (hids : noDupBy devIdEq db.devices = true)
    (huniq : noDupBy devKeyEq db.devices = true) :
    ∃ row, (saveDevice {} now dev db).1.devices.find? (deviceKeyMatches dev)
      = some row := by
  have hone := saveDevice_filter_one now dev db hids huniq
  have hne : (saveDevice {} now dev db).1.devices.filter (deviceKeyMatches dev) ≠ [] := by
    intro h
    rw [h] at hone
    cases hone
  obtain ⟨x, hx⟩ := List.exists_mem_of_ne_nil _ hne
  have hsome : ((saveDevice {} now dev db).1.devices.find? (deviceKeyMatches dev)).isSome := by
    rw [List.find?_isSome]
    exact ⟨x, List.mem_of_mem_filter hx, List.of_mem_filter hx⟩
  exact Option.isSome_iff_exists.mp hsome

theorem portKeyMatches_iff (port : PortIn) (r : PortRow) :
    portKeyMatches port r = true
      ↔ r.deviceId = port.deviceId ∧ r.portNumber = port.portNumber
        ∧ r.protocol = port.protocol := by
  simp [portKeyMatches, and_assoc]

theorem savePortInsert_happy_ports (now : Nat) (port : PortIn) (db : DBState) :
    (savePortInsert {} now port db).1.ports
      = db.ports ++ [newPortRow port now db.nextPortId] := by
  simp [savePortInsert, appendChange]

theorem portKeyMatches_newRow (port : PortIn) (now id : Nat) :
    portKeyMatches port (newPortRow port now id) = true := by
  simp [portKeyMatches, newPortRow]

theorem portKeyMatches_compat (port : PortIn) (a b : PortRow)
    (ha : portKeyMatches port a = true) (hb : portKeyMatches port b = true) :
    portKeyEq a b = true := by
  rcases (portKeyMatches_iff port a).mp ha with ⟨h1, h2, h3⟩
  rcases (portKeyMatches_iff port b).mp hb with ⟨h4, h5, h6⟩
  simp [portKeyEq, h1, h2, h3, h4, h5, h6]

theorem updatedPortFields_pred (port : PortIn) (now : Nat) (row a : PortRow) :
    portKeyMatches port (updatedPortFields port now row a)
      = portKeyMatches port a := by
  rcases updatedPortFields_frame port now row a with ⟨_, h1, h2, h3, _⟩
  simp [portKeyMatches, h1, h2, h3]

theorem savePort_happy_update (now : Nat) (port : PortIn) (db : DBState)
    (row : PortRow) (hfind : db.ports.find? (portKeyMatches port) = some row) :
    savePort {} now port db = savePortUpdate {} now port row db := by
  unfold savePort
  simp [hfind]

theorem savePort_filter_one (now : Nat) (port : PortIn) (db : DBState)
    (huniq : noDupBy portKeyEq db.ports = true) :
    (((savePort {} now port db).1.ports.filter (portKeyMatches port)).length
      = 1) := by
  unfold savePort
  cases hfind : db.ports.find? (portKeyMatches port) with
  | none =>
    simp only [hfind, Bool.false_eq_true, if_false]
    rw [savePortInsert_happy_ports, List.filter_append]
    rw [List.filter_eq_nil_iff.mpr (by
      intro a ha hpa
      exact List.find?_eq_none.mp hfind a ha hpa)]
    rw [List.filter_cons_of_pos (portKeyMatches_newRow port now db.nextPortId)]
    rfl
  | some row =>
    simp only [hfind, Bool.false_eq_true, if_false]
    have hmem : row ∈ db.ports := List.mem_of_find?_eq_some hfind
    have hkey : portKeyMatches port row = true := List.find?_some hfind
    have hone : ((db.ports.filter (portKeyMatches port)).length = 1) :=
      filter_length_one_of_noDupBy portKeyEq (portKeyMatches port)
        (portKeyMatches_compat port) db.ports huniq row hmem hkey
    rcases savePortUpdate_fst {} now port row db with heq | ⟨hports, _, _, _⟩
    · rw [heq]
      exact hone
    rw [hports, List.filter_map,
      List.length_map, List.filter_congr
        (fun a ha => by
          rw [Function.comp_apply, updatedPortFields_pred])]
    exact hone

theorem portServiceChanged_false_parts {port : PortIn} {row : PortRow}
    (hname : port.serviceName = "" ∨ row.serviceName = port.serviceName)
    (hver : port.serviceVersion = "" ∨ row.serviceVersion = port.serviceVersion) :
    portServiceChanged port row = false := by
  unfold portServiceChanged
  rcases hname with h1 | h1 <;> rcases hver with h2 | h2 <;> simp [h1, h2]

theorem savePort_matched_props (now : Nat) (port : PortIn) (db : DBState)
    (huniq : noDupBy portKeyEq db.ports = true) :
    ∀ r ∈ (savePort {} now port db).1.ports,
      portKeyMatches port r = true →
      (port.serviceName = "" ∨ r.serviceName = port.serviceName)
      ∧ (port.serviceVersion = "" ∨ r.serviceVersion = port.serviceVersion) := by
  unfold savePort
  cases hfind : db.ports.find? (portKeyMatches port) with
  | none =>
    simp only [hfind, Bool.false_eq_true, if_false]
    rw [savePortInsert_happy_ports]
    intro r hr hpred
    rcases List.mem_append.mp hr with h | h
    · exact absurd hpred (List.find?_eq_none.mp hfind r h)
    · rw [List.mem_singleton] at h
      subst h
      exact ⟨Or.inr rfl, Or.inr rfl⟩
  | some row =>
    simp only [hfind, Bool.false_eq_true, if_false]
    have hmem : row ∈ db.ports := List.mem_of_find?_eq_some hfind
    have hkey : portKeyMatches port row = true := List.find?_some hfind
    unfold savePortUpdate
    by_cases hc : (portServiceChanged port row || decide (now < port.lastSeen + 3600)) = true
    · have hmain : ∀ r ∈ db.ports.map (updatedPortFields port now row),
          portKeyMatches port r = true →
          (port.serviceName = "" ∨ r.serviceName = port.serviceName)
          ∧ (port.serviceVersion = "" ∨ r.serviceVersion = port.serviceVersion) := by
        intro r hr hpred
        rcases List.mem_map.mp hr with ⟨a, ha, rfl⟩
        have hpred_a : portKeyMatches port a = true := by
          rwa [updatedPortFields_pred] at hpred
        have haeq : a = row := eq_of_noDupBy portKeyEq_symm huniq ha hmem
          (portKeyMatches_compat port a row hpred_a hkey)
        subst haeq
        unfold updatedPortFields
        simp only [beq_self_eq_true, if_true]
        constructor
        · by_cases hh : port.serviceName = ""
          · exact Or.inl hh
          · right
            simp [hh]
        · by_cases hh : port.serviceVersion = ""
          · exact Or.inl hh
          · right
            simp [hh]
      by_cases hch : portServiceChanged port row = true
      · simp only [hc, hch, eq_self_iff_true, Bool.true_or, if_true,
          Bool.false_eq_true, if_false, appendChange]
        exact hmain
      · have hfr : now < port.lastSeen + 3600 := by
          rcases Bool.or_eq_true_iff.mp hc with h | h
          · exact absurd h hch
          · exact of_decide_eq_true h
        simp only [hc, hch, hfr, decide_eq_true_eq, eq_self_iff_true,
          Bool.false_or, Bool.false_eq_true, if_true, if_false, decide_True]
        exact hmain
    · have hc' : (portServiceChanged port row || decide (now < port.lastSeen + 3600)) = false :=
        Bool.eq_false_iff.mpr hc
      rcases Bool.or_eq_false_iff.mp hc' with ⟨hch, _⟩
      simp only [hc', Bool.false_eq_true, if_false]
      intro r hr hpred
      have hreq : r = row := eq_of_noDupBy portKeyEq_symm huniq hr hmem
        (portKeyMatches_compat port r row hpred hkey)
      subst hreq
      unfold portServiceChanged at hch
      rcases Bool.or_eq_false_iff.mp hch with ⟨hch1, hch2⟩
      constructor
      · rcases Bool.and_eq_false_iff.mp hch1 with h | h
        · exact Or.inr (bne_eq_false_iff_eq.mp h).symm
        · exact Or.inl (bne_eq_false_iff_eq.mp h)
      · rcases Bool.and_eq_false_iff.mp hch2 with h | h
        · exact Or.inr (bne_eq_false_iff_eq.mp h).symm
        · exact Or.inl (bne_eq_false_iff_eq.mp h)

theorem savePort_nochange (now : Nat) (port : PortIn) (db : DBState)
    (row : PortRow)
    (hfind : db.ports.find? (portKeyMatches port) = some row)
    (hname : port.serviceName = "" ∨ row.serviceName = port.serviceName)
    (hver : port.serviceVersion = "" ∨ row.serviceVersion = port.serviceVersion) :
    (savePort {} now port db).1.changes = db.changes
    ∧ (savePort {} now port db).1.ports.length = db.ports.length := by
  have hch : portServiceChanged port row = false :=
    portServiceChanged_false_parts hname hver
  rw [savePort_happy_update now port db row hfind]
  unfold savePortUpdate
  by_cases hfr : now < port.lastSeen + 3600 <;>
    simp [hch, hfr]

theorem savePort_changes_le (now : Nat) (port : PortIn) (db : DBState) :
    (savePort {} now port db).1.changes.length ≤ db.changes.length + 1 := by
  unfold savePort
  cases hfind : db.ports.find? (portKeyMatches port) with
  | none =>
    simp only [hfind, Bool.false_eq_true, if_false]
    simp [savePortInsert, appendChange]
  | some row =>
    simp only [hfind, Bool.false_eq_true, if_false]
    unfold savePortUpdate
    by_cases hch : portServiceChanged port row = true <;>
      by_cases hfr : now < port.lastSeen + 3600 <;>
        simp [hch, hfr, appendChange]

theorem savePort_find_some (now : Nat) (port : PortIn) (db : DBState)
    (huniq : noDupBy portKeyEq db.ports = true) :
    ∃ row, (savePort {} now port db).1.ports.find? (portKeyMatches port)
      = some row := by
  have hone := savePort_filter_one now port db huniq
  have hne : (savePort {} now port db).1.ports.filter (portKeyMatches port) ≠ [] := by
    intro h
    rw [h] at hone
    cases hone
  obtain ⟨x, hx⟩ := List.exists_mem_of_ne_nil _ hne
  have hsome : ((savePort {} now port db).1.ports.find? (portKeyMatches port)).isSome := by
    rw [List.find?_isSome]
    exact ⟨x, List.mem_of_mem_filter hx, List.of_mem_filter hx⟩
  exact Option.isSome_iff_exists.mp hsome

/-- C5: merging the same host/port observation twice (two consecutive
`SaveDevice` / `SavePort` calls with identical field values) on a
well-formed store yields exactly one matching Device row and one matching
Port row; the second call inserts no row and appends no Change, and the
first call appends at most one Change. -/
theorem c5_idempotent_reobservation (now : Nat) (dev : DeviceIn)
    (port : PortIn) (db : DBState) (hwf : dbWellFormed db = true) :
    (((saveDevice {} now dev (saveDevice {} now dev db).1).1.devices.filter
        (deviceKeyMatches dev)).length = 1)
    ∧ (saveDevice {} now dev (saveDevice {} now dev db).1).1.devices.length
        = (saveDevice {} now dev db).1.devices.length
    ∧ (saveDevice {} now dev (saveDevice {} now dev db).1).1.changes
        = (saveDevice {} now dev db).1.changes
    ∧ (saveDevice {} now dev db).1.changes.length ≤ db.changes.length + 1
    ∧ (((savePort {} now port (savePort {} now port db).1).1.ports.filter
        (portKeyMatches port)).length = 1)
    ∧ (savePort {} now port (savePort {} now port db).1).1.ports.length
        = (savePort {} now port db).1.ports.length
    ∧ (savePort {} now port (savePort {} now port db).1).1.changes
        = (savePort {} now port db).1.changes
    ∧ (savePort {} now port db).1.changes.length ≤ db.changes.length + 1 := by
  rcases (dbWellFormed_iff db).mp hwf with ⟨hids, _, huniq, _, _, hpuniq⟩
  have hwf1 : dbWellFormed (saveDevice {} now dev db).1 = true :=
    wf_saveDevice {} now dev db hwf
  rcases (dbWellFormed_iff _).mp hwf1 with ⟨hids1, _, huniq1, _, _, _⟩
  have hwfp1 : dbWellFormed (savePort {} now port db).1 = true :=
    wf_savePort {} now port db hwf
  rcases (dbWellFormed_iff _).mp hwfp1 with ⟨_, _, _, _, _, hpuniq1⟩
  obtain ⟨row1, hfind1⟩ := saveDevice_find_some now dev db hids huniq
  have hmem1 : row1 ∈ (saveDevice {} now dev db).1.devices :=
    List.mem_of_find?_eq_some hfind1
  have hkey1 : deviceKeyMatches dev row1 = true := List.find?_some hfind1
  rcases saveDevice_matched_props now dev db hids huniq row1 hmem1 hkey1
    with ⟨hhost1, hos1⟩
  rcases saveDevice_nochange now dev (saveDevice {} now dev db).1 row1 hfind1
    hhost1 hos1 with ⟨hchg2, hlen2⟩
  obtain ⟨prow1, hpfind1⟩ := savePort_find_some now port db hpuniq
  have hpmem1 : prow1 ∈ (savePort {} now port db).1.ports :=
    List.mem_of_find?_eq_some hpfind1
  have hpkey1 : portKeyMatches port prow1 = true := List.find?_some hpfind1
  rcases savePort_matched_props now port db hpuniq prow1 hpmem1 hpkey1
    with ⟨hname1, hver1⟩
  rcases savePort_nochange now port (savePort {} now port db).1 prow1 hpfind1
    hname1 hver1 with ⟨hpchg2, hplen2⟩
  exact ⟨saveDevice_filter_one now dev (saveDevice {} now dev db).1 hids1 huniq1,
    hlen2, hchg2, saveDevice_changes_le now dev db,
    savePort_filter_one now port (savePort {} now port db).1 hpuniq1,
    hplen2, hpchg2, savePort_changes_le now port db⟩

/-- Witness for C5 at a concrete input: re-observing a device and a port
twice against the empty store leaves one matching row each, with the second
call a no-op on rows and changes. -/
theorem c5_idempotent_reobservation_witness :
    dbWellFormed emptyDB = true
    ∧ ((((saveDevice {} 7200 devC5 (saveDevice {} 7200 devC5 emptyDB).1).1.devices.filter
        (deviceKeyMatches devC5)).length = 1)
    ∧ (saveDevice {} 7200 devC5 (saveDevice {} 7200 devC5 emptyDB).1).1.devices.length
        = (saveDevice {} 7200 devC5 emptyDB).1.devices.length
    ∧ (saveDevice {} 7200 devC5 (saveDevice {} 7200 devC5 emptyDB).1).1.changes
        = (saveDevice {} 7200 devC5 emptyDB).1.changes
    ∧ (saveDevice {} 7200 devC5 emptyDB).1.changes.length ≤ emptyDB.changes.length + 1
    ∧ (((savePort {} 7200 portC5 (savePort {} 7200 portC5 emptyDB).1).1.ports.filter
        (portKeyMatches portC5)).length = 1)
    ∧ (savePort {} 7200 portC5 (savePort {} 7200 portC5 emptyDB).1).1.ports.length
        = (savePort {} 7200 portC5 emptyDB).1.ports.length
    ∧ (savePort {} 7200 portC5 (savePort {} 7200 portC5 emptyDB).1).1.changes
        = (savePort {} 7200 portC5 emptyDB).1.changes
    ∧ (savePort {} 7200 portC5 emptyDB).1.changes.length ≤ emptyDB.changes.length + 1) :=
  ⟨by decide, c5_idempotent_reobservation 7200 devC5 portC5 emptyDB (by decide)⟩

/-- Counterexample to C7 as stated: with a 30-day retention and cutoff 100,
the Change row `chgC7` is newer than the cutoff (timestamp 200) yet it is
removed by the sweep, because the Scan it references (timestamp 50) is
deleted and `changes.scan_id` carries `ON DELETE CASCADE`; the returned sum
1 counts only the directly deleted Scan row. -/
theorem c7_recent_change_cascades :
    dbC7.changes = [chgC7]
    ∧ ¬ chgC7.timestamp < 2592100 - 30 * 86400
    ∧ (cleanOldData {} 2592100 30 dbC7).1.changes = []
    ∧ ((cleanOldData {} 2592100 30 dbC7).2).toOption = some 1 := by
  decide

/-- C7 (amended): `CleanOldData` deletes, in order and in one transaction,
the Change, Scan, Device (with their Ports cascading) and Log rows older
than `now - retentionDays` days, and returns the sum of the four direct
deletion counts; surviving rows are exactly those at or newer than the
cutoff minus the cascade victims: ports of a deleted device and changes
referencing a deleted scan or device. -/
theorem c7_retention_sweep (now retentionDays : Nat) (db : DBState) :
    (cleanOldData {} now retentionDays db).1.scans
      = db.scans.filter (fun s => !decide (s.timestamp < now - retentionDays * 86400))
    ∧ (cleanOldData {} now retentionDays db).1.devices
      = db.devices.filter (fun d => !decide (d.lastSeen < now - retentionDays * 86400))
    ∧ (cleanOldData {} now retentionDays db).1.ports
      = db.ports.filter (fun p =>
          !(db.devices.filter (fun d => decide (d.lastSeen < now - retentionDays * 86400))).any
            (fun d => d.id == p.deviceId))
    ∧ (cleanOldData {} now retentionDays db).1.logs
      = db.logs.filter (fun l => !decide (l.timestamp < now - retentionDays * 86400))
    ∧ (cleanOldData {} now retentionDays db).1.changes
      = ((db.changes.filter (fun c => !decide (c.timestamp < now - retentionDays * 86400))).filter
          (fun c => !(db.scans.filter (fun s => decide (s.timestamp < now - retentionDays * 86400))).any
            (fun s => s.id == c.scanId))).filter
          (fun c => !(db.devices.filter (fun d => decide (d.lastSeen < now - retentionDays * 86400))).any
            (fun d => d.id == c.deviceId))
    ∧ (cleanOldData {} now retentionDays db).2
      = .ok ((db.scans.filter (fun s => decide (s.timestamp < now - retentionDays * 86400))).length
          + (db.devices.filter (fun d => decide (d.lastSeen < now - retentionDays * 86400))).length
          + (db.changes.filter (fun c => decide (c.timestamp < now - retentionDays * 86400))).length
          + (db.logs.filter (fun l => decide (l.timestamp < now - retentionDays * 86400))).length) := by
  unfold cleanOldData
  exact ⟨rfl, rfl, rfl, rfl, rfl, rfl⟩
